import Mathlib

/-! Profile statistics synchronisation (`src/mern/src/components/Profile.js`).

A shallow embedding of the data logic of the `Profile` component:
`fetchUserStats` (lines 62-165), `getAchievementLevel` (lines 167-173) and the
two `useEffect` subscriptions (lines 24-60).

Modelling conventions.

* JavaScript values are the values `JSON.parse` and an HTTP body can yield,
  plus `undefined`.  A finite number is the exact rational value of an IEEE-754
  double; division and multiplication round their exact result to the nearest
  double, ties to even, with gradual underflow and overflow to infinity
  (`roundDouble`).  The sign of zero is not modelled.
* Library behaviour whose definition is not part of the repository is a field
  of `Runtime`: the content of `localStorage`, `JSON.parse`, the conversion of
  strings and of objects to numbers, and `Number::toString`.
* A thrown exception is the `error` side of `Except`.
-/

namespace Profile

/-! ## Values -/

/-- A JavaScript number: `NaN`, `+Infinity`, `-Infinity` or a finite value,
given by the rational the double denotes. -/
inductive JSNum where
  | nan
  | posInf
  | negInf
  | fin (q : ℚ)

/-- A JavaScript value as far as this component can observe one. -/
inductive JSValue where
  | undefined
  | null
  | bool (b : Bool)
  | num (n : JSNum)
  | str (s : String)
  | arr (items : List JSValue)
  | obj (props : List (String × JSValue))

/-- The exceptions that can occur while `fetchUserStats` runs. -/
inductive JSError where
  | typeError
  | syntaxError
  | requestFailed
  deriving DecidableEq, Repr

/-- The part of the JavaScript runtime the component reads but does not define. -/
structure Runtime where
  /-- The function `localStorage.getItem`: `none` is `null`. -/
  getItem : String → Option String
  /-- The function `JSON.parse`: `none` is a thrown `SyntaxError`. -/
  jsonParse : String → Option JSValue
  /-- The abstract operation `StringToNumber`. -/
  stringToNumber : String → JSNum
  /-- The operation `ToNumber` on an array or object (through `ToPrimitive`). -/
  objectToNumber : JSValue → Except JSError JSNum
  /-- The operation `Number::toString`, which `toFixed` uses from `10^21` on. -/
  numberToString : JSNum → String

/-- The operation `ToBoolean` on numbers: `NaN` and zero are falsy. -/
def JSNum.truthy : JSNum → Bool
  | .nan => false
  | .posInf => true
  | .negInf => true
  | .fin q => decide (q ≠ 0)

/-- The operation `ToBoolean`. -/
def toBoolean : JSValue → Bool
  | .undefined => false
  | .null => false
  | .bool b => b
  | .num n => n.truthy
  | .str s => decide (s ≠ "")
  | .arr _ => true
  | .obj _ => true

/-- The value bound to `key` in a property list, `undefined` when there is none. -/
def lookupProp (key : String) : List (String × JSValue) → JSValue
  | [] => .undefined
  | (k, v) :: rest => if k = key then v else lookupProp key rest

/-- The value of `v.key` for a `v` that is neither `undefined` nor `null`.  Only
data objects carry the statistics properties; they are absent from primitives
and arrays. -/
def JSValue.field (v : JSValue) (key : String) : JSValue :=
  match v with
  | .obj props => lookupProp key props
  | _ => .undefined

/-- Property access `v.key`: a `TypeError` on `undefined` and `null`. -/
def getProp (v : JSValue) (key : String) : Except JSError JSValue :=
  match v with
  | .undefined => .error .typeError
  | .null => .error .typeError
  | w => .ok (w.field key)

/-- The expression `a || b` with both operands already evaluated. -/
def jsOr (a b : JSValue) : JSValue :=
  if toBoolean a then a else b

/-! ## Numbers -/

/-- The operation `ToNumber`. -/
def toNumber (rt : Runtime) : JSValue → Except JSError JSNum
  | .undefined => .ok .nan
  | .null => .ok (.fin 0)
  | .bool b => .ok (.fin (if b then 1 else 0))
  | .num n => .ok n
  | .str s => .ok (rt.stringToNumber s)
  | .arr items => rt.objectToNumber (.arr items)
  | .obj props => rt.objectToNumber (.obj props)

/-- The comparison `a < b` on numbers; `false` when either side is `NaN`. -/
def JSNum.lt : JSNum → JSNum → Bool
  | .nan, _ => false
  | _, .nan => false
  | .posInf, _ => false
  | .negInf, .negInf => false
  | .negInf, _ => true
  | .fin _, .posInf => true
  | .fin _, .negInf => false
  | .fin a, .fin b => decide (a < b)

/-- The comparison `a >= b` on numbers: not `a < b`, and `false` on `NaN`. -/
def JSNum.ge : JSNum → JSNum → Bool
  | .nan, _ => false
  | _, .nan => false
  | a, b => !(JSNum.lt a b)

/-- The integer nearest to `t`, a tie going to the even neighbour. -/
def roundHalfEven (t : ℚ) : ℤ :=
  if t - ⌊t⌋ < 1 / 2 then ⌊t⌋
  else if 1 / 2 < t - ⌊t⌋ then ⌊t⌋ + 1
  else if ⌊t⌋ % 2 = 0 then ⌊t⌋ else ⌊t⌋ + 1

/-- The exponent of the last place of a double near `x`: 52 below the binary
exponent of `x`, which in turn is not below `-1022` (subnormal numbers). -/
def doubleExponent (x : ℚ) : ℤ :=
  max (Int.log 2 |x|) (-1022) - 52

/-- The double nearest to the exact value `x` (IEEE-754 binary64, round to
nearest, ties to even): the magnitude is rounded to a multiple of
`2 ^ doubleExponent x`, and a result of `2^1024` or more is an infinity. -/
def roundDouble (x : ℚ) : JSNum :=
  let y : ℚ := roundHalfEven (|x| / 2 ^ doubleExponent x) * 2 ^ doubleExponent x
  if (2 : ℚ) ^ 1024 ≤ y then (if 0 < x then .posInf else .negInf)
  else .fin (if 0 < x then y else -y)

/-- The quotient `a / b` on numbers. -/
def JSNum.div : JSNum → JSNum → JSNum
  | .nan, _ => .nan
  | _, .nan => .nan
  | .fin a, .fin b =>
    if b ≠ 0 then roundDouble (a / b)
    else if a = 0 then .nan
    else if 0 < a then .posInf else .negInf
  | .fin _, _ => .fin 0
  | .posInf, .fin b => if 0 ≤ b then .posInf else .negInf
  | .negInf, .fin b => if 0 ≤ b then .negInf else .posInf
  | _, _ => .nan

/-- The product `a * b` on numbers. -/
def JSNum.mul : JSNum → JSNum → JSNum
  | .nan, _ => .nan
  | _, .nan => .nan
  | .fin a, .fin b => roundDouble (a * b)
  | .fin a, .posInf => if a = 0 then .nan else if 0 < a then .posInf else .negInf
  | .fin a, .negInf => if a = 0 then .nan else if 0 < a then .negInf else .posInf
  | .posInf, .fin b => if b = 0 then .nan else if 0 < b then .posInf else .negInf
  | .negInf, .fin b => if b = 0 then .nan else if 0 < b then .negInf else .posInf
  | .posInf, .posInf => .posInf
  | .posInf, .negInf => .negInf
  | .negInf, .posInf => .negInf
  | .negInf, .negInf => .posInf

/-- The expression `v > 0`. -/
def jsGtZero (rt : Runtime) (v : JSValue) : Except JSError Bool :=
  match toNumber rt v with
  | .error e => .error e
  | .ok n => .ok (JSNum.lt (.fin 0) n)

/-- The expression `v >= k` for a numeric literal `k`. -/
def jsGe (rt : Runtime) (v : JSValue) (k : ℚ) : Except JSError Bool :=
  match toNumber rt v with
  | .error e => .error e
  | .ok n => .ok (JSNum.ge n (.fin k))

/-- The decimal text of `n` tenths: integer part, a point, one digit. -/
def formatTenths (n : ℕ) : String :=
  toString (n / 10) ++ "." ++ toString (n % 10)

/-- The call `x.toFixed(1)`.  A finite `x` below `10^21` in magnitude is
rounded to the nearest tenth of its exact value, a tie going away from zero. -/
def toFixed1 (rt : Runtime) : JSNum → String
  | .nan => "NaN"
  | .posInf => "Infinity"
  | .negInf => "-Infinity"
  | .fin q =>
    let s := if q < 0 then "-" else ""
    let x := |q|
    if (10 : ℚ) ^ 21 ≤ x then s ++ rt.numberToString (.fin x)
    else s ++ formatTenths (Int.toNat ⌊x * 10 + 1 / 2⌋)

/-! ## Snapshots and component state -/

/-- The object handed to `setStats`: the eight properties of `realStats`. -/
structure StatsSnapshot where
  gamesPlayed : JSValue
  gamesWon : JSValue
  gamesLost : JSValue
  gamesDrawn : JSValue
  totalLinesCompleted : JSValue
  averageLinesPerGame : JSValue
  winRate : JSValue
  achievementLevel : JSValue

/-- The two `useState` cells of the component: `stats` and `loading`. -/
structure ProfileState where
  stats : Option StatsSnapshot
  loading : Bool

/-- The state after `useState(null)` and `useState(true)` (lines 21-22). -/
def initialState : ProfileState :=
  { stats := none, loading := true }

/-- How `await axios.get('/api/users/stats', ...)` settles: with a response
whose `data` is given, or by throwing. -/
inductive RemoteOutcome where
  | resolved (data : JSValue)
  | rejected

/-- The outcomes that lead to the local cache: a failed call, or a response
whose `data` is falsy. -/
def RemoteOutcome.isFallback : RemoteOutcome → Bool
  | .resolved data => !(toBoolean data)
  | .rejected => true

/-- The number literal `0`. -/
def zero : JSValue := .num (.fin 0)

/-- The initial value of `userStats` (lines 97-104 and 133-140). -/
def defaultUserStats : JSValue :=
  .obj [("gamesPlayed", zero), ("gamesWon", zero), ("gamesLost", zero),
    ("gamesDrawn", zero), ("totalLinesCompleted", zero), ("averageLinesPerGame", zero)]

/-- The template literal with `user._id` spliced in after `bingoStats_`.  The user is
`none` when `useAuth()` yields `null`, and then the access throws; otherwise it
carries the text `user._id` is rendered as. -/
def statsKey (user : Option String) : Except JSError String :=
  match user with
  | none => .error .typeError
  | some id => .ok ("bingoStats_" ++ id)

/-- The call `JSON.parse(s)`. -/
def parseJSON (rt : Runtime) (s : String) : Except JSError JSValue :=
  match rt.jsonParse s with
  | none => .error .syntaxError
  | some v => .ok v

/-! ## `fetchUserStats` (lines 62-165) -/

/-- Lines 78-90: the snapshot built from a truthy `response.data`. -/
def remoteBranch (backendStats : JSValue) : Except JSError StatsSnapshot := do
  let gamesPlayed ← getProp backendStats "gamesPlayed"
  let gamesWon ← getProp backendStats "gamesWon"
  let gamesLost ← getProp backendStats "gamesLost"
  let gamesDrawn ← getProp backendStats "gamesDrawn"
  let totalLinesCompleted ← getProp backendStats "totalLinesCompleted"
  let averageLinesPerGame ← getProp backendStats "averageLinesPerGame"
  let winRate ← getProp backendStats "winRate"
  let achievementLevel ← getProp backendStats "achievementLevel"
  pure {
    gamesPlayed := jsOr gamesPlayed zero
    gamesWon := jsOr gamesWon zero
    gamesLost := jsOr gamesLost zero
    gamesDrawn := jsOr gamesDrawn zero
    totalLinesCompleted := jsOr totalLinesCompleted zero
    averageLinesPerGame := jsOr averageLinesPerGame zero
    winRate := jsOr winRate zero
    achievementLevel := jsOr achievementLevel (.str "Bingo Rookie") }

/-- Lines 95-123: the snapshot built in the `else` branch of the `try` block,
when `response.data` is falsy. -/
def emptyBodyBranch (rt : Runtime) (user : Option String) :
    Except JSError StatsSnapshot := do
  let key ← statsKey user
  let savedStats := rt.getItem key
  let userStats ← (match savedStats with
    | some s => if s ≠ "" then parseJSON rt s else pure defaultUserStats
    | none => pure defaultUserStats)
  let played ← getProp userStats "gamesPlayed"
  let positive ← jsGtZero rt played
  let winRate ← (if positive then do
      let won ← getProp userStats "gamesWon"
      let divisor ← getProp userStats "gamesPlayed"
      let a ← toNumber rt won
      let b ← toNumber rt divisor
      pure (JSValue.str (toFixed1 rt (JSNum.mul (JSNum.div a b) (.fin 100))))
    else pure (JSValue.str "0.0"))
  let gamesPlayed ← getProp userStats "gamesPlayed"
  let gamesWon ← getProp userStats "gamesWon"
  let gamesLost ← getProp userStats "gamesLost"
  let gamesDrawn ← getProp userStats "gamesDrawn"
  let totalLinesCompleted ← getProp userStats "totalLinesCompleted"
  let averageLinesPerGame ← getProp userStats "averageLinesPerGame"
  pure {
    gamesPlayed := gamesPlayed
    gamesWon := gamesWon
    gamesLost := gamesLost
    gamesDrawn := jsOr gamesDrawn zero
    totalLinesCompleted := totalLinesCompleted
    averageLinesPerGame := averageLinesPerGame
    winRate := winRate
    achievementLevel := .str "Bingo Rookie" }

/-- Lines 131-159: the snapshot built in the `catch` block. -/
def catchBranch (rt : Runtime) (user : Option String) :
    Except JSError StatsSnapshot := do
  let key ← statsKey user
  let savedStats := rt.getItem key
  let userStats ← (match savedStats with
    | some s => if s ≠ "" then parseJSON rt s else pure defaultUserStats
    | none => pure defaultUserStats)
  let played ← getProp userStats "gamesPlayed"
  let positive ← jsGtZero rt played
  let winRate ← (if positive then do
      let won ← getProp userStats "gamesWon"
      let divisor ← getProp userStats "gamesPlayed"
      let a ← toNumber rt won
      let b ← toNumber rt divisor
      pure (JSValue.str (toFixed1 rt (JSNum.mul (JSNum.div a b) (.fin 100))))
    else pure (JSValue.str "0.0"))
  let gamesPlayed ← getProp userStats "gamesPlayed"
  let gamesWon ← getProp userStats "gamesWon"
  let gamesLost ← getProp userStats "gamesLost"
  let gamesDrawn ← getProp userStats "gamesDrawn"
  let totalLinesCompleted ← getProp userStats "totalLinesCompleted"
  let averageLinesPerGame ← getProp userStats "averageLinesPerGame"
  pure {
    gamesPlayed := gamesPlayed
    gamesWon := gamesWon
    gamesLost := gamesLost
    gamesDrawn := jsOr gamesDrawn zero
    totalLinesCompleted := totalLinesCompleted
    averageLinesPerGame := averageLinesPerGame
    winRate := winRate
    achievementLevel := .str "Bingo Rookie" }

/-- Lines 63-126: the `try` block, up to the argument of `setStats`.  A rejected
request throws; a truthy `response.data` takes the remote branch.  The access
token read on line 65 only parametrises the request, whose outcome is `remote`. -/
def tryBlock (rt : Runtime) (user : Option String) (remote : RemoteOutcome) :
    Except JSError StatsSnapshot :=
  match remote with
  | .rejected => .error .requestFailed
  | .resolved data =>
    if toBoolean data then remoteBranch data else emptyBodyBranch rt user

/-- The function `fetchUserStats`: the component state after the call settles,
and the error the returned promise rejects with (`none` when it fulfils).
An exception of the `try` block enters the `catch` block; an exception of the
`catch` block leaves the function; `finally` clears `loading` either way.
The thrown value is an error object, so reading `error.response?.data` on line
129 cannot throw. -/
def fetchUserStats (rt : Runtime) (user : Option String) (remote : RemoteOutcome)
    (st : ProfileState) : ProfileState × Option JSError :=
  match tryBlock rt user remote with
  | .ok realStats => ({ stats := some realStats, loading := false }, none)
  | .error _ =>
    match catchBranch rt user with
    | .ok realStats => ({ stats := some realStats, loading := false }, none)
    | .error e => ({ stats := st.stats, loading := false }, some e)

/-! ## `getAchievementLevel` (lines 167-173) -/

/-- The object `getAchievementLevel` returns. -/
structure Achievement where
  level : String
  color : String
  icon : String
  deriving DecidableEq, Repr

/-- The expression `stats?.gamesWon`. -/
def gamesWonOf (stats : Option StatsSnapshot) : JSValue :=
  match stats with
  | none => .undefined
  | some s => s.gamesWon

/-- The function `getAchievementLevel`, reading the `stats` cell. -/
def getAchievementLevel (rt : Runtime) (stats : Option StatsSnapshot) :
    Except JSError Achievement := do
  if (← jsGe rt (gamesWonOf stats) 100) then
    return { level := "Bingo Master", color := "text-purple-600", icon := "👑" }
  if (← jsGe rt (gamesWonOf stats) 50) then
    return { level := "Bingo Expert", color := "text-blue-600", icon := "🏆" }
  if (← jsGe rt (gamesWonOf stats) 25) then
    return { level := "Bingo Pro", color := "text-green-600", icon := "🥇" }
  if (← jsGe rt (gamesWonOf stats) 10) then
    return { level := "Bingo Player", color := "text-yellow-600", icon := "🥈" }
  return { level := "Bingo Rookie", color := "text-gray-600", icon := "🥉" }

/-! ## Subscriptions and polling (lines 24-60) -/

/-- A function object registered with the socket, the window or a timer: its
identity, and whether invoking it calls `fetchUserStats` of this component. -/
structure Listener where
  id : Nat
  callsFetch : Bool

/-- The registries outside the component: the `gameCompleted` listeners of
each socket and of `window`, the running interval timers, and the supply of
fresh identities for closures and timers. -/
structure Host where
  socketListeners : Nat → List Listener
  windowListeners : List Listener
  intervals : List (Nat × Listener)
  nextId : Nat

/-- The call `socket.on('gameCompleted', l)`. -/
def socketOn (sock : Nat) (l : Listener) (h : Host) : Host :=
  { h with socketListeners := fun s =>
      if s = sock then h.socketListeners s ++ [l] else h.socketListeners s }

/-- The call `socket.off('gameCompleted')`: every listener of the event goes. -/
def socketOff (sock : Nat) (h : Host) : Host :=
  { h with socketListeners := fun s => if s = sock then [] else h.socketListeners s }

/-- The call `window.addEventListener('gameCompleted', l)`; a function that is
registered already is not added again. -/
def addEventListener (l : Listener) (h : Host) : Host :=
  if h.windowListeners.any (fun k => k.id == l.id) then h
  else { h with windowListeners := h.windowListeners ++ [l] }

/-- The call `window.removeEventListener('gameCompleted', l)`. -/
def removeEventListener (l : Listener) (h : Host) : Host :=
  { h with windowListeners := h.windowListeners.filter (fun k => k.id != l.id) }

/-- The call `setInterval(l, 30000)`, returning the timer identity. -/
def setInterval (l : Listener) (h : Host) : Host × Nat :=
  ({ h with intervals := h.intervals ++ [(h.nextId, l)], nextId := h.nextId + 1 }, h.nextId)

/-- The call `clearInterval(t)`. -/
def clearInterval (t : Nat) (h : Host) : Host :=
  { h with intervals := h.intervals.filter (fun p => p.1 != t) }

/-- What the cleanup closure of the first effect captures: the `socket` of that
render and the `handleGameCompleted` function created in it. -/
structure SubscriptionCleanup where
  socket : Option Nat
  handleGameCompleted : Listener

/-- Lines 24-44: the body of the first effect for the current `socket`
(`none` is a falsy socket).  Both functions it creates call `fetchUserStats`. -/
def subscriptionEffect (socket : Option Nat) (h : Host) : Host × SubscriptionCleanup :=
  let onSocket : Listener := { id := h.nextId, callsFetch := true }
  let handleGameCompleted : Listener := { id := h.nextId + 1, callsFetch := true }
  let h1 : Host := { h with nextId := h.nextId + 2 }
  let h2 := match socket with
    | some sock => socketOn sock onSocket h1
    | none => h1
  (addEventListener handleGameCompleted h2,
    { socket := socket, handleGameCompleted := handleGameCompleted })

/-- Lines 45-50: the cleanup returned by the first effect. -/
def subscriptionCleanup (c : SubscriptionCleanup) (h : Host) : Host :=
  let h1 := match c.socket with
    | some sock => socketOff sock h
    | none => h
  removeEventListener c.handleGameCompleted h1

/-- Lines 54-57: the body of the polling effect; the timer identity is what
its cleanup captures. -/
def pollingEffect (h : Host) : Host × Nat :=
  setInterval { id := h.nextId, callsFetch := true } { h with nextId := h.nextId + 1 }

/-- Line 59: the cleanup returned by the polling effect. -/
def pollingCleanup (interval : Nat) (h : Host) : Host :=
  clearInterval interval h

/-- The cleanups a mounted component holds. -/
structure Mounted where
  subscription : SubscriptionCleanup
  interval : Nat

/-- Mounting runs both effects. -/
def mount (socket : Option Nat) (h : Host) : Host × Mounted :=
  let r1 := subscriptionEffect socket h
  let r2 := pollingEffect r1.1
  (r2.1, { subscription := r1.2, interval := r2.2 })

/-- What can happen while the component is mounted: the `socket` dependency
changes, or other code registers a listener of its own. -/
inductive LifeStep where
  | socketChanged (socket : Option Nat)
  | foreignSocketOn (sock : Nat) (id : Nat)
  | foreignWindowAdd (id : Nat)
  | foreignInterval (id : Nat)

/-- One step of a mounted component.  When the dependency `[socket]` changes,
the previous cleanup runs and then the effect runs again. -/
def lifeStep (step : LifeStep) (hm : Host × Mounted) : Host × Mounted :=
  match step with
  | .socketChanged socket =>
    let r := subscriptionEffect socket (subscriptionCleanup hm.2.subscription hm.1)
    (r.1, { hm.2 with subscription := r.2 })
  | .foreignSocketOn sock id => (socketOn sock { id := id, callsFetch := false } hm.1, hm.2)
  | .foreignWindowAdd id => (addEventListener { id := id, callsFetch := false } hm.1, hm.2)
  | .foreignInterval id => ((setInterval { id := id, callsFetch := false } hm.1).1, hm.2)

/-- Unmounting (subsystem stop) runs both cleanups. -/
def unmount (hm : Host × Mounted) : Host :=
  pollingCleanup hm.2.interval (subscriptionCleanup hm.2.subscription hm.1)

/-- The life of a component: mount, the given steps, unmount. -/
def lifecycle (socket : Option Nat) (steps : List LifeStep) (h : Host) : Host :=
  unmount (steps.foldl (fun hm step => lifeStep step hm) (mount socket h))

/-- How many calls of `fetchUserStats` one `gameCompleted` event on `sock` causes. -/
def fetchCallsOnSocketEvent (h : Host) (sock : Nat) : Nat :=
  ((h.socketListeners sock).filter (fun l => l.callsFetch)).length

/-- How many calls of `fetchUserStats` one `gameCompleted` window event causes. -/
def fetchCallsOnWindowEvent (h : Host) : Nat :=
  (h.windowListeners.filter (fun l => l.callsFetch)).length

/-- How many calls of `fetchUserStats` one elapsed 30-second period causes. -/
def fetchCallsOnTick (h : Host) : Nat :=
  (h.intervals.filter (fun p => p.2.callsFetch)).length

/-- A host in which no function of this component is registered. -/
def Host.clean (h : Host) : Prop :=
  (∀ sock, fetchCallsOnSocketEvent h sock = 0) ∧ fetchCallsOnWindowEvent h = 0 ∧
    fetchCallsOnTick h = 0

/-- No listener on a socket or on `window` calls `fetchUserStats`. -/
def Host.noSubscription (h : Host) : Prop :=
  (∀ sock, ∀ l ∈ h.socketListeners sock, l.callsFetch = false) ∧
    ∀ l ∈ h.windowListeners, l.callsFetch = false

/-- No interval timer calls `fetchUserStats`. -/
def Host.noPolling (h : Host) : Prop :=
  ∀ p ∈ h.intervals, p.2.callsFetch = false

/-- Every listener that calls `fetchUserStats` is one the cleanup `c` removes:
it sits on the socket `c` captured, or is the window handler `c` captured. -/
def Host.subscriptionOwned (h : Host) (c : SubscriptionCleanup) : Prop :=
  (∀ sock, ∀ l ∈ h.socketListeners sock, l.callsFetch = true → c.socket = some sock) ∧
    ∀ l ∈ h.windowListeners, l.callsFetch = true → l.id = c.handleGameCompleted.id

/-- Every timer that calls `fetchUserStats` is the timer `t`. -/
def Host.pollingOwned (h : Host) (t : Nat) : Prop :=
  ∀ p ∈ h.intervals, p.2.callsFetch = true → p.1 = t

/-! ## Vocabulary of the statements -/

/-- The snapshot of a user with no cache entry: all counts `0`. -/
def zeroSnapshot : StatsSnapshot :=
  { gamesPlayed := zero, gamesWon := zero, gamesLost := zero, gamesDrawn := zero,
    totalLinesCompleted := zero, averageLinesPerGame := zero,
    winRate := .str "0.0", achievementLevel := .str "Bingo Rookie" }

/-- The cache entry of user `id` seen as the spec's CachedStats, reduced to the
two counts the win rate reads: `none` when `bingoStats_<id>` is absent,
`some (gamesWon, gamesPlayed)` when it holds a JSON object with these two
finite numbers. -/
def cacheIs (rt : Runtime) (id : String) : Option (ℚ × ℚ) → Prop
  | none => rt.getItem ("bingoStats_" ++ id) = none
  | some (won, played) => ∃ text props,
      rt.getItem ("bingoStats_" ++ id) = some text ∧ text ≠ "" ∧
      rt.jsonParse text = some (.obj props) ∧
      lookupProp "gamesWon" props = .num (.fin won) ∧
      lookupProp "gamesPlayed" props = .num (.fin played)

/-- The spec's rounding: `x` to one decimal place, as decimal text. -/
def roundOneDecimal (x : ℚ) : String :=
  (if x < 0 then "-" else "") ++ formatTenths (Int.toNat (round (|x| * 10)))

/-- The spec's fallback win rate (section 4.1, step 4): `gamesWon / gamesPlayed * 100`
to one decimal when `gamesPlayed > 0`, else `"0.0"`. -/
def specWinRate : Option (ℚ × ℚ) → String
  | none => "0.0"
  | some (won, played) =>
    if 0 < played then roundOneDecimal (won / played * 100) else "0.0"

/-- Every property of the snapshot holds a value other than `undefined`. -/
def StatsSnapshot.complete (s : StatsSnapshot) : Prop :=
  s.gamesPlayed ≠ .undefined ∧ s.gamesWon ≠ .undefined ∧ s.gamesLost ≠ .undefined ∧
    s.gamesDrawn ≠ .undefined ∧ s.totalLinesCompleted ≠ .undefined ∧
    s.averageLinesPerGame ≠ .undefined ∧ s.winRate ≠ .undefined ∧
    s.achievementLevel ≠ .undefined

/-- The value `v` is what the fallback block reads from the cache of user `id`:
the default object when `bingoStats_<id>` is absent or the empty string, and
otherwise what `JSON.parse` makes of the entry. -/
def cacheValue (rt : Runtime) (id : String) (v : JSValue) : Prop :=
  (rt.getItem ("bingoStats_" ++ id) = none ∧ v = defaultUserStats) ∨
    (rt.getItem ("bingoStats_" ++ id) = some "" ∧ v = defaultUserStats) ∨
    ∃ text, rt.getItem ("bingoStats_" ++ id) = some text ∧ text ≠ "" ∧
      rt.jsonParse text = some v

/-- The win-rate expression can be evaluated on `v`: `v` has properties (it is
neither `null` nor `undefined`), its `gamesPlayed` converts to a number, and
so does its `gamesWon` when `gamesPlayed > 0`. -/
def countsConvert (rt : Runtime) (v : JSValue) : Prop :=
  (∃ w, getProp v "gamesPlayed" = .ok w) ∧
    ∃ n, toNumber rt (v.field "gamesPlayed") = .ok n ∧
      (JSNum.lt (.fin 0) n = true → ∃ m, toNumber rt (v.field "gamesWon") = .ok m)

/-- The exact value of the spec's fallback win rate, before any rounding, for
cached counts `(gamesWon, gamesPlayed)`: `gamesWon / gamesPlayed * 100` when
`gamesPlayed > 0`, and 0 otherwise or without a cache entry. -/
def exactWinRate : Option (ℕ × ℕ) → ℚ
  | none => 0
  | some (won, played) => if 0 < played then (won : ℚ) / played * 100 else 0

/-- Integer counts as the numbers the cache holds. -/
def cachedCounts (cached : Option (ℕ × ℕ)) : Option (ℚ × ℚ) :=
  cached.map (fun c => ((c.1 : ℚ), (c.2 : ℚ)))

/-- The tier name shown for a snapshot whose `gamesWon` is the number `n`. -/
def levelAt (rt : Runtime) (s : StatsSnapshot) (n : ℚ) : Except JSError String :=
  (getAchievementLevel rt (some { s with gamesWon := .num (.fin n) })).map (fun a => a.level)

/-- A runtime for the examples: `localStorage` holds `saved` under
`bingoStats_u1` and nothing else, and `JSON.parse` accepts exactly `text`,
reading it as `parsed`. -/
def exampleRuntime (saved : Option String) (text : String) (parsed : JSValue) : Runtime :=
  { getItem := fun key => if key = "bingoStats_u1" then saved else none
    jsonParse := fun s => if s = text then some parsed else none
    stringToNumber := fun _ => .nan
    objectToNumber := fun _ => .ok .nan
    numberToString := fun _ => "NaN" }

/-- The number `n` as a value. -/
def count (n : ℚ) : JSValue := .num (.fin n)

/-- The JSON text of the object with `gamesPlayed` 20 and `gamesWon` 5. -/
def cachedText : String := "\x7b\"gamesPlayed\":20,\"gamesWon\":5\x7d"

/-- The object with `gamesPlayed` 20 and `gamesWon` 5. -/
def cachedObject : JSValue := .obj [("gamesPlayed", count 20), ("gamesWon", count 5)]

/-- A runtime whose cache entry for `u1` is the object of `cachedObject`. -/
def cachedRuntime : Runtime := exampleRuntime (some cachedText) cachedText cachedObject

/-- A runtime whose cache entry for `u1` is not JSON. -/
def corruptRuntime : Runtime := exampleRuntime (some "not json") cachedText cachedObject

/-- A runtime with no cache entry. -/
def emptyRuntime : Runtime := exampleRuntime none cachedText cachedObject

/-- A runtime whose cache entry for `u1` has `gamesPlayed` 2 and `gamesWon` 3. -/
def overfullRuntime : Runtime :=
  exampleRuntime (some "\x7b\"gamesPlayed\":2,\"gamesWon\":3\x7d")
    "\x7b\"gamesPlayed\":2,\"gamesWon\":3\x7d"
    (.obj [("gamesPlayed", count 2), ("gamesWon", count 3)])

/-- A runtime whose cache entry for `u1` has `gamesPlayed` 200 and `gamesWon` 150. -/
def veteranRuntime : Runtime :=
  exampleRuntime (some "\x7b\"gamesPlayed\":200,\"gamesWon\":150\x7d")
    "\x7b\"gamesPlayed\":200,\"gamesWon\":150\x7d"
    (.obj [("gamesPlayed", count 200), ("gamesWon", count 150)])

/-- A runtime whose cache entry for `u1` has `gamesPlayed` 80 and `gamesWon` 23. -/
def tieRuntime : Runtime :=
  exampleRuntime (some "\x7b\"gamesPlayed\":80,\"gamesWon\":23\x7d")
    "\x7b\"gamesPlayed\":80,\"gamesWon\":23\x7d"
    (.obj [("gamesPlayed", count 80), ("gamesWon", count 23)])

/-- A runtime whose cache entry for `u1` is the JSON text `null`. -/
def nullRuntime : Runtime := exampleRuntime (some "null") "null" .null

/-- A host with nothing registered. -/
def emptyHost : Host :=
  { socketListeners := fun _ => [], windowListeners := [], intervals := [], nextId := 0 }

/-! ## Theorems: auxiliary facts -/

/-! ### Rounding to a double -/

theorem roundHalfEven_cases (t : ℚ) : roundHalfEven t = ⌊t⌋ ∨
    (roundHalfEven t = ⌊t⌋ + 1 ∧ 1 / 2 ≤ t - ⌊t⌋) := by
  unfold roundHalfEven
  split_ifs with h1 h2 h3
  · exact Or.inl rfl
  · exact Or.inr ⟨rfl, le_of_lt h2⟩
  · exact Or.inl rfl
  · exact Or.inr ⟨rfl, not_lt.mp h1⟩

theorem roundHalfEven_le (t : ℚ) (M : ℤ) (h : t ≤ M) : roundHalfEven t ≤ M := by
  have hf : ⌊t⌋ ≤ M := by
    have := Int.floor_le t
    exact_mod_cast (this.trans h : ((⌊t⌋ : ℤ) : ℚ) ≤ M)
  rcases roundHalfEven_cases t with h1 | ⟨h1, h2⟩
  · rw [h1]; exact hf
  · rw [h1]
    have hne : ⌊t⌋ ≠ M := by
      intro heq
      have h3 : t ≤ (⌊t⌋ : ℚ) := by rw [heq]; exact h
      linarith
    omega

theorem roundHalfEven_nonneg (t : ℚ) (h : 0 ≤ t) : 0 ≤ roundHalfEven t := by
  have hf : 0 ≤ ⌊t⌋ := Int.floor_nonneg.mpr h
  rcases roundHalfEven_cases t with h1 | ⟨h1, -⟩ <;> rw [h1] <;> omega

theorem abs_roundHalfEven_sub_le (t : ℚ) : |(roundHalfEven t : ℚ) - t| ≤ 1 / 2 := by
  have h1 := Int.floor_le t
  have h2 := Int.lt_floor_add_one t
  unfold roundHalfEven
  rw [abs_le]
  split_ifs with ha hb hc <;> push_cast <;> constructor <;> linarith

theorem log_two_eq (x : ℚ) (k : ℤ) (hx : 0 < x) (h1 : (2 : ℚ) ^ k ≤ x)
    (h2 : x < (2 : ℚ) ^ (k + 1)) : Int.log 2 x = k := by
  have a : k ≤ Int.log 2 x :=
    (Int.zpow_le_iff_le_log (by norm_num) hx).mp (by exact_mod_cast h1)
  have b : Int.log 2 x < k + 1 :=
    (Int.lt_zpow_iff_log_lt (by norm_num) hx).mp (by exact_mod_cast h2)
  omega

/-- Evaluation of `roundDouble` at a positive `x` of known binade. -/
theorem roundDouble_eval (x : ℚ) (k m : ℤ) (hx : 0 < x) (h1 : (2 : ℚ) ^ k ≤ x)
    (h2 : x < (2 : ℚ) ^ (k + 1)) (hk : -1022 ≤ k)
    (hm : roundHalfEven (x / 2 ^ (k - 52)) = m)
    (hfin : (m : ℚ) * 2 ^ (k - 52) < 2 ^ 1024) :
    roundDouble x = .fin (m * 2 ^ (k - 52)) := by
  have he : doubleExponent x = k - 52 := by
    simp only [doubleExponent, abs_of_pos hx, log_two_eq x k hx h1 h2, max_eq_left hk]
  simp only [roundDouble, he, abs_of_pos hx, hm, not_le.mpr hfin, if_false, hx, if_true]

theorem roundDouble_le_nat (x : ℚ) (N : ℕ) (hx : 0 < x) (hxN : x ≤ N) (hN : N < 2 ^ 53) :
    ∃ y, roundDouble x = .fin y ∧ 0 ≤ y ∧ y ≤ N := by
  have hlog : Int.log 2 x < 53 := by
    apply (Int.lt_zpow_iff_log_lt (by norm_num) hx).mp
    have : (N : ℚ) < 2 ^ 53 := by exact_mod_cast hN
    calc x ≤ N := hxN
      _ < ((2 : ℕ) : ℚ) ^ (53 : ℤ) := by
        norm_num
        exact lt_of_lt_of_le hN (by norm_num)
  have he : doubleExponent x ≤ 0 := by
    simp only [doubleExponent, abs_of_pos hx]
    have : max (Int.log 2 x) (-1022) ≤ 52 := max_le (by omega) (by norm_num)
    omega
  obtain ⟨n, hn⟩ : ∃ n : ℕ, doubleExponent x = -(n : ℤ) :=
    ⟨(-doubleExponent x).toNat, by omega⟩
  have hpow : (2 : ℚ) ^ doubleExponent x = 1 / 2 ^ n := by
    rw [hn, zpow_neg, zpow_natCast, one_div]
  have hpos : (0 : ℚ) < 2 ^ n := by positivity
  have ht : x / 2 ^ doubleExponent x ≤ ((N * 2 ^ n : ℕ) : ℤ) := by
    rw [hpow]
    push_cast
    rw [div_div_eq_mul_div, div_one]
    exact mul_le_mul_of_nonneg_right hxN hpos.le
  have hr := roundHalfEven_le _ _ ht
  have hr0 : 0 ≤ roundHalfEven (x / 2 ^ doubleExponent x) :=
    roundHalfEven_nonneg _ (by positivity)
  simp only [roundDouble, abs_of_pos hx]
  generalize roundHalfEven (x / 2 ^ doubleExponent x) = r at hr hr0 ⊢
  have hy : (r : ℚ) * 2 ^ doubleExponent x ≤ N := by
    rw [hpow, mul_one_div, div_le_iff₀ hpos]
    exact_mod_cast hr
  have hy0 : (0 : ℚ) ≤ r * 2 ^ doubleExponent x := by
    have : (0 : ℚ) ≤ r := by exact_mod_cast hr0
    positivity
  have hfin : ¬ ((2 : ℚ) ^ 1024 ≤ r * 2 ^ doubleExponent x) := by
    rw [not_le]
    have : (N : ℚ) < 2 ^ 53 := by exact_mod_cast hN
    calc _ ≤ (N : ℚ) := hy
      _ < 2 ^ 53 := this
      _ ≤ 2 ^ 1024 := by norm_num
  refine ⟨_, ?_, hy0, hy⟩
  simp only [hfin, if_false, hx, if_true]

/-- In the normal range the rounding error is at most `x / 2^53`. -/
theorem roundDouble_error (x : ℚ) (h1 : (2 : ℚ) ^ (-1022 : ℤ) ≤ x) (h2 : x < 2 ^ 1023) :
    ∃ y, roundDouble x = .fin y ∧ |y - x| ≤ x / 2 ^ 53 := by
  have hx : 0 < x := lt_of_lt_of_le (by positivity) h1
  have hk : -1022 ≤ Int.log 2 x :=
    (Int.zpow_le_iff_le_log (by norm_num) hx).mp (by exact_mod_cast h1)
  have hle : (2 : ℚ) ^ Int.log 2 x ≤ x := by
    have := Int.zpow_log_le_self (b := 2) (r := x) (by norm_num) hx
    exact_mod_cast this
  have he : doubleExponent x = Int.log 2 x - 52 := by
    simp only [doubleExponent, abs_of_pos hx, max_eq_left hk]
  have hpe : (0 : ℚ) < 2 ^ doubleExponent x := by positivity
  have hq : (2 : ℚ) ^ doubleExponent x = 2 ^ Int.log 2 x / 2 ^ 52 := by
    rw [he, zpow_sub₀ (by norm_num)]
    norm_num
  have herr := abs_roundHalfEven_sub_le (x / 2 ^ doubleExponent x)
  have hy : |(roundHalfEven (x / 2 ^ doubleExponent x) : ℚ) * 2 ^ doubleExponent x - x| ≤
      x / 2 ^ 53 := by
    have e1 : (roundHalfEven (x / 2 ^ doubleExponent x) : ℚ) * 2 ^ doubleExponent x - x =
        ((roundHalfEven (x / 2 ^ doubleExponent x) : ℚ) - x / 2 ^ doubleExponent x) *
          2 ^ doubleExponent x := by
      field_simp
    rw [e1, abs_mul, abs_of_pos hpe]
    calc _ ≤ 1 / 2 * (2 : ℚ) ^ doubleExponent x :=
          mul_le_mul_of_nonneg_right herr hpe.le
      _ = 2 ^ Int.log 2 x / 2 ^ 53 := by rw [hq]; ring
      _ ≤ x / 2 ^ 53 := by
        apply div_le_div_of_nonneg_right hle
        positivity
  have hfin : ¬ ((2 : ℚ) ^ 1024 ≤
      roundHalfEven (x / 2 ^ doubleExponent x) * 2 ^ doubleExponent x) := by
    rw [not_le]
    have h3 := (abs_le.mp hy).2
    have h4 : x / 2 ^ 53 ≤ x := div_le_self hx.le (by norm_num)
    have h5 : (2 : ℚ) ^ 1024 = 2 * 2 ^ 1023 := by norm_num
    linarith
  refine ⟨_, ?_, hy⟩
  simp only [roundDouble, abs_of_pos hx, hfin, if_false, hx, if_true]

theorem roundDouble_zero : roundDouble 0 = .fin 0 := by
  simp [roundDouble, roundHalfEven]

/-! ### The fallback blocks -/

theorem catchBranch_eq_emptyBodyBranch (rt : Runtime) (user : Option String) :
    catchBranch rt user = emptyBodyBranch rt user := rfl

theorem fetchUserStats_of_fallback (rt : Runtime) (user : Option String)
    (remote : RemoteOutcome) (st : ProfileState) (h : remote.isFallback = true) :
    fetchUserStats rt user remote st =
      match emptyBodyBranch rt user with
      | .ok realStats => ({ stats := some realStats, loading := false }, none)
      | .error e => ({ stats := st.stats, loading := false }, some e) := by
  cases remote with
  | rejected =>
    simp only [fetchUserStats, tryBlock, catchBranch_eq_emptyBodyBranch]
  | resolved data =>
    have hd : toBoolean data = false := by simpa [RemoteOutcome.isFallback] using h
    simp only [fetchUserStats, tryBlock, hd, catchBranch_eq_emptyBodyBranch]
    cases emptyBodyBranch rt user <;> simp

theorem emptyBodyBranch_absent (rt : Runtime) (id : String)
    (h : rt.getItem ("bingoStats_" ++ id) = none) :
    emptyBodyBranch rt (some id) = .ok zeroSnapshot := by
  simp [emptyBodyBranch, statsKey, h, bind, Except.bind, pure, Except.pure, getProp,
    defaultUserStats, JSValue.field, lookupProp, jsGtZero, toNumber, zero, JSNum.lt, jsOr,
    toBoolean, JSNum.truthy, zeroSnapshot]

theorem emptyBodyBranch_emptyString (rt : Runtime) (id : String)
    (h : rt.getItem ("bingoStats_" ++ id) = some "") :
    emptyBodyBranch rt (some id) = .ok zeroSnapshot := by
  simp [emptyBodyBranch, statsKey, h, bind, Except.bind, pure, Except.pure, getProp,
    defaultUserStats, JSValue.field, lookupProp, jsGtZero, toNumber, zero, JSNum.lt, jsOr,
    toBoolean, JSNum.truthy, zeroSnapshot]

theorem emptyBodyBranch_corrupt (rt : Runtime) (id text : String)
    (h : rt.getItem ("bingoStats_" ++ id) = some text) (hne : text ≠ "")
    (hp : rt.jsonParse text = none) :
    emptyBodyBranch rt (some id) = .error .syntaxError := by
  simp [emptyBodyBranch, statsKey, h, hne, parseJSON, hp, bind, Except.bind]

theorem emptyBodyBranch_counts (rt : Runtime) (id text : String)
    (props : List (String × JSValue)) (won played : ℚ)
    (h : rt.getItem ("bingoStats_" ++ id) = some text) (hne : text ≠ "")
    (hp : rt.jsonParse text = some (.obj props))
    (hw : lookupProp "gamesWon" props = .num (.fin won))
    (hpl : lookupProp "gamesPlayed" props = .num (.fin played)) :
    emptyBodyBranch rt (some id) = .ok
      { gamesPlayed := .num (.fin played)
        gamesWon := .num (.fin won)
        gamesLost := lookupProp "gamesLost" props
        gamesDrawn := jsOr (lookupProp "gamesDrawn" props) zero
        totalLinesCompleted := lookupProp "totalLinesCompleted" props
        averageLinesPerGame := lookupProp "averageLinesPerGame" props
        winRate := .str (if 0 < played
          then toFixed1 rt (JSNum.mul (JSNum.div (.fin won) (.fin played)) (.fin 100))
          else "0.0")
        achievementLevel := .str "Bingo Rookie" } := by
  by_cases h0 : 0 < played
  · simp [emptyBodyBranch, statsKey, h, hne, parseJSON, hp, bind, Except.bind, pure,
      Except.pure, getProp, JSValue.field, hw, hpl, jsGtZero, toNumber, JSNum.lt, h0]
  · simp [emptyBodyBranch, statsKey, h, hne, parseJSON, hp, bind, Except.bind, pure,
      Except.pure, getProp, JSValue.field, hw, hpl, jsGtZero, toNumber, JSNum.lt, h0]

theorem formatTenths_zero : formatTenths 0 = "0.0" := by decide

theorem toFixed1_of_nonneg (rt : Runtime) (d : ℚ) (h0 : 0 ≤ d) (h : d < 10 ^ 21) :
    toFixed1 rt (.fin d) = formatTenths (Int.toNat ⌊d * 10 + 1 / 2⌋) := by
  have h1 : ¬ ((10 : ℚ) ^ 21 ≤ d) := not_le.mpr h
  simp only [toFixed1, abs_of_nonneg h0, h1, if_false, not_lt.mpr h0, String.empty_append]

theorem winRate_value_bounded (won played : ℚ) (h0 : 0 ≤ won) (hle : won ≤ played)
    (hpos : 0 < played) :
    ∃ d, JSNum.mul (JSNum.div (.fin won) (.fin played)) (.fin 100) = .fin d ∧
      0 ≤ d ∧ d ≤ 100 := by
  have hne : played ≠ 0 := ne_of_gt hpos
  rcases eq_or_lt_of_le h0 with hw | hw
  · subst hw
    exact ⟨0, by simp [JSNum.div, JSNum.mul, hne, roundDouble_zero], le_refl _, by norm_num⟩
  · have hx : 0 < won / played := div_pos hw hpos
    have hx1 : won / played ≤ ((1 : ℕ) : ℚ) := by
      rw [Nat.cast_one]
      exact (div_le_one hpos).mpr hle
    obtain ⟨y, hy, hy0, hy1⟩ := roundDouble_le_nat _ 1 hx hx1 (by norm_num)
    rcases eq_or_lt_of_le hy0 with hz | hz
    · subst hz
      exact ⟨0, by simp [JSNum.div, JSNum.mul, hne, hy, roundDouble_zero], le_refl _,
        by norm_num⟩
    · have hy1' : y ≤ 1 := by exact_mod_cast hy1
      obtain ⟨d, hd, hd0, hd1⟩ := roundDouble_le_nat (y * 100) 100 (by positivity)
        (by push_cast; linarith) (by norm_num)
      exact ⟨d, by simp [JSNum.div, JSNum.mul, hne, hy, hd], hd0, by exact_mod_cast hd1⟩

theorem tenths_le_of_le (d : ℚ) (h : d ≤ 100) :
    Int.toNat ⌊d * 10 + 1 / 2⌋ ≤ 1000 := by
  have h2 : ⌊d * 10 + 1 / 2⌋ < 1001 := by
    rw [Int.floor_lt]
    push_cast
    linarith
  omega

theorem remoteBranch_of_truthy (data : JSValue) (h : toBoolean data = true) :
    remoteBranch data = .ok
      { gamesPlayed := jsOr (data.field "gamesPlayed") zero
        gamesWon := jsOr (data.field "gamesWon") zero
        gamesLost := jsOr (data.field "gamesLost") zero
        gamesDrawn := jsOr (data.field "gamesDrawn") zero
        totalLinesCompleted := jsOr (data.field "totalLinesCompleted") zero
        averageLinesPerGame := jsOr (data.field "averageLinesPerGame") zero
        winRate := jsOr (data.field "winRate") zero
        achievementLevel := jsOr (data.field "achievementLevel") (.str "Bingo Rookie") } := by
  cases data <;> simp_all [toBoolean, remoteBranch, getProp, bind, Except.bind, pure, Except.pure]

/-! ## The remote branch -/

/-- C3: when the response body is non-empty (truthy), the snapshot set by
`fetchUserStats` is a function of the body alone, for every cache content and
user: each numeric field is the body's value when that value is truthy and `0`
otherwise, and `achievementLevel` is the body's value when truthy and
`"Bingo Rookie"` otherwise. -/
theorem remote_body_is_authoritative (rt : Runtime) (user : Option String)
    (data : JSValue) (st : ProfileState) (h : toBoolean data = true) :
    fetchUserStats rt user (.resolved data) st =
      ({ stats := some
          { gamesPlayed :=
              if toBoolean (data.field "gamesPlayed") then data.field "gamesPlayed"
              else .num (.fin 0)
            gamesWon :=
              if toBoolean (data.field "gamesWon") then data.field "gamesWon"
              else .num (.fin 0)
            gamesLost :=
              if toBoolean (data.field "gamesLost") then data.field "gamesLost"
              else .num (.fin 0)
            gamesDrawn :=
              if toBoolean (data.field "gamesDrawn") then data.field "gamesDrawn"
              else .num (.fin 0)
            totalLinesCompleted :=
              if toBoolean (data.field "totalLinesCompleted")
              then data.field "totalLinesCompleted" else .num (.fin 0)
            averageLinesPerGame :=
              if toBoolean (data.field "averageLinesPerGame")
              then data.field "averageLinesPerGame" else .num (.fin 0)
            winRate :=
              if toBoolean (data.field "winRate") then data.field "winRate"
              else .num (.fin 0)
            achievementLevel :=
              if toBoolean (data.field "achievementLevel") then data.field "achievementLevel"
              else .str "Bingo Rookie" },
         loading := false }, none) := by
  simp only [fetchUserStats, tryBlock, h, if_true, remoteBranch_of_truthy data h, jsOr, zero]

/-- C3, at the two bodies of the spec: the body holding only `gamesWon: 3`
gives `gamesWon` 3 and every other numeric field 0, also when the cache is
corrupt; a body with `gamesWon: 7` gives `gamesWon` 7 although the cache says 5. -/
theorem remote_body_is_authoritative_witness :
    toBoolean (.obj [("gamesWon", count 3)]) = true ∧
    fetchUserStats corruptRuntime (some "u1") (.resolved (.obj [("gamesWon", count 3)]))
        initialState =
      ({ stats := some
          { gamesPlayed := count 0, gamesWon := count 3, gamesLost := count 0,
            gamesDrawn := count 0, totalLinesCompleted := count 0,
            averageLinesPerGame := count 0, winRate := count 0,
            achievementLevel := .str "Bingo Rookie" },
         loading := false }, none) ∧
    (fetchUserStats cachedRuntime (some "u1")
        (.resolved (.obj [("gamesPlayed", count 9), ("gamesWon", count 7)]))
        initialState).1.stats.map (fun s => s.gamesWon) = some (count 7) := by
  refine ⟨rfl, ?_, ?_⟩
  · rw [remote_body_is_authoritative corruptRuntime (some "u1")
      (.obj [("gamesWon", count 3)]) initialState rfl]
    simp [JSValue.field, lookupProp, toBoolean, JSNum.truthy, count]
  · rw [remote_body_is_authoritative cachedRuntime (some "u1")
      (.obj [("gamesPlayed", count 9), ("gamesWon", count 7)]) initialState rfl]
    simp [JSValue.field, lookupProp, toBoolean, JSNum.truthy, count]

/-- C6, as stated, fails: for the body with `gamesPlayed` 20 and `gamesWon` 5
and no derived field, the snapshot's `winRate` is the default `0`, not 25; and
for a body holding only `gamesWon: 100` the tier is the default
`"Bingo Rookie"` although `getAchievementLevel` puts 100 wins at `"Bingo Master"`. -/
theorem remote_derived_fields_not_computed :
    (fetchUserStats emptyRuntime (some "u1") (.resolved cachedObject)
        initialState).1.stats.map (fun s => s.winRate) = some (count 0) ∧
    count 0 ≠ count 25 ∧
    (fetchUserStats emptyRuntime (some "u1") (.resolved (.obj [("gamesWon", count 100)]))
        initialState).1.stats.map (fun s => s.achievementLevel) = some (.str "Bingo Rookie") ∧
    levelAt emptyRuntime zeroSnapshot 100 = .ok "Bingo Master" := by
  refine ⟨?_, ?_, ?_, ?_⟩
  · simp [fetchUserStats, tryBlock, cachedObject, toBoolean, remoteBranch_of_truthy,
      JSValue.field, lookupProp, jsOr, zero, count]
  · simp [count]
  · simp [fetchUserStats, tryBlock, toBoolean, remoteBranch_of_truthy,
      JSValue.field, lookupProp, jsOr, zero, count, JSNum.truthy]
  · simp [levelAt, getAchievementLevel, gamesWonOf, jsGe, toNumber, JSNum.ge, JSNum.lt,
      bind, Except.bind, pure, Except.pure, Except.map]

/-- C6, amended: for a non-empty body that omits `winRate` and
`achievementLevel`, `fetchUserStats` computes neither: the snapshot carries
`winRate` 0 and `achievementLevel` `"Bingo Rookie"`, whatever the body's counts. -/
theorem remote_omitted_derived_fields_default (rt : Runtime) (user : Option String)
    (data : JSValue) (st : ProfileState) (h : toBoolean data = true)
    (hw : data.field "winRate" = .undefined)
    (ha : data.field "achievementLevel" = .undefined) :
    ∃ snap, fetchUserStats rt user (.resolved data) st =
        ({ stats := some snap, loading := false }, none) ∧
      snap.winRate = .num (.fin 0) ∧ snap.achievementLevel = .str "Bingo Rookie" ∧
      snap.gamesWon = jsOr (data.field "gamesWon") zero ∧
      snap.gamesPlayed = jsOr (data.field "gamesPlayed") zero := by
  refine ⟨
    { gamesPlayed := jsOr (data.field "gamesPlayed") zero
      gamesWon := jsOr (data.field "gamesWon") zero
      gamesLost := jsOr (data.field "gamesLost") zero
      gamesDrawn := jsOr (data.field "gamesDrawn") zero
      totalLinesCompleted := jsOr (data.field "totalLinesCompleted") zero
      averageLinesPerGame := jsOr (data.field "averageLinesPerGame") zero
      winRate := jsOr (data.field "winRate") zero
      achievementLevel := jsOr (data.field "achievementLevel") (.str "Bingo Rookie") },
    ?_, ?_, ?_, rfl, rfl⟩
  · simp only [fetchUserStats, tryBlock, h, if_true, remoteBranch_of_truthy data h]
  · simp [hw, jsOr, toBoolean, zero]
  · simp [ha, jsOr, toBoolean]

/-- C6, amended, at the body with `gamesPlayed` 20 and `gamesWon` 5. -/
theorem remote_omitted_derived_fields_default_witness :
    ∃ snap, fetchUserStats emptyRuntime (some "u1") (.resolved cachedObject) initialState =
        ({ stats := some snap, loading := false }, none) ∧
      snap.winRate = .num (.fin 0) ∧ snap.achievementLevel = .str "Bingo Rookie" ∧
      snap.gamesWon = jsOr (cachedObject.field "gamesWon") zero ∧
      snap.gamesPlayed = jsOr (cachedObject.field "gamesPlayed") zero :=
  remote_omitted_derived_fields_default emptyRuntime (some "u1") cachedObject initialState
    rfl rfl rfl

/-! ## The achievement tier -/

/-- C4: for every number of wins `n`, `getAchievementLevel` names the tier of
the highest threshold `n` reaches: Master from 100, Expert from 50, Pro from
25, Player from 10, Rookie below; so 9 is Rookie, 10 and 24 are Player, 25 is
Pro and 100 is Master. -/
theorem achievement_level_thresholds (rt : Runtime) (s : StatsSnapshot) (n : ℚ) :
    levelAt rt s n = .ok
        (if 100 ≤ n then "Bingo Master" else if 50 ≤ n then "Bingo Expert"
          else if 25 ≤ n then "Bingo Pro" else if 10 ≤ n then "Bingo Player"
          else "Bingo Rookie") ∧
      levelAt rt s 9 = .ok "Bingo Rookie" ∧ levelAt rt s 10 = .ok "Bingo Player" ∧
      levelAt rt s 24 = .ok "Bingo Player" ∧ levelAt rt s 25 = .ok "Bingo Pro" ∧
      levelAt rt s 100 = .ok "Bingo Master" := by
  have key : ∀ m : ℚ, levelAt rt s m = .ok
      (if 100 ≤ m then "Bingo Master" else if 50 ≤ m then "Bingo Expert"
        else if 25 ≤ m then "Bingo Pro" else if 10 ≤ m then "Bingo Player"
        else "Bingo Rookie") := by
    intro m
    simp only [levelAt, getAchievementLevel, gamesWonOf, jsGe, toNumber, JSNum.ge, JSNum.lt,
      bind, Except.bind, pure, Except.pure, Except.map]
    by_cases h1 : 100 ≤ m
    · simp [h1]
    · by_cases h2 : 50 ≤ m
      · simp [h1, h2]
      · by_cases h3 : 25 ≤ m
        · simp [h1, h2, h3]
        · by_cases h4 : 10 ≤ m <;> simp [h1, h2, h3, h4]
  refine ⟨key n, ?_, ?_, ?_, ?_, ?_⟩ <;> rw [key] <;> norm_num

/-! ## The two fallback blocks -/

/-- C9: the two fallback branches agree.  For every user, cache content and
prior state, the outcome of `fetchUserStats` after a response with an empty
(falsy) body, the state it leaves and the way its promise settles, is the
outcome after a failed request; in particular the snapshots set are equal
field for field when the cache entry is absent or parses. -/
theorem empty_body_equals_failure (rt : Runtime) (user : Option String)
    (data : JSValue) (st : ProfileState) (h : toBoolean data = false) :
    fetchUserStats rt user (.resolved data) st = fetchUserStats rt user .rejected st := by
  rw [fetchUserStats_of_fallback rt user (.resolved data) st (by simp [RemoteOutcome.isFallback, h]),
    fetchUserStats_of_fallback rt user .rejected st rfl]

/-- C9, for the empty-string body and the cache holding 5 wins in 20 games:
both outcomes are the same snapshot. -/
theorem empty_body_equals_failure_witness :
    toBoolean (.str "") = false ∧
    fetchUserStats cachedRuntime (some "u1") (.resolved (.str "")) initialState =
      fetchUserStats cachedRuntime (some "u1") .rejected initialState :=
  ⟨rfl, empty_body_equals_failure cachedRuntime (some "u1") (.str "") initialState rfl⟩

/-! ## The fallback path -/

theorem fetchUserStats_fallback_counts (rt : Runtime) (id : String) (remote : RemoteOutcome)
    (st : ProfileState) (won played : ℚ) (hfb : remote.isFallback = true)
    (hc : cacheIs rt id (some (won, played))) :
    ∃ snap, fetchUserStats rt (some id) remote st =
        ({ stats := some snap, loading := false }, none) ∧
      snap.winRate =
        .str (if 0 < played
          then toFixed1 rt (JSNum.mul (JSNum.div (.fin won) (.fin played)) (.fin 100))
          else "0.0") ∧
      snap.achievementLevel = .str "Bingo Rookie" ∧
      snap.gamesWon = .num (.fin won) ∧ snap.gamesPlayed = .num (.fin played) := by
  obtain ⟨text, props, hg, hne, hp, hw, hpl⟩ := hc
  rw [fetchUserStats_of_fallback rt (some id) remote st hfb,
    emptyBodyBranch_counts rt id text props won played hg hne hp hw hpl]
  exact ⟨_, rfl, rfl, rfl, rfl, rfl⟩

theorem fetchUserStats_fallback_absent (rt : Runtime) (id : String) (remote : RemoteOutcome)
    (st : ProfileState) (hfb : remote.isFallback = true) (hc : cacheIs rt id none) :
    fetchUserStats rt (some id) remote st =
      ({ stats := some zeroSnapshot, loading := false }, none) := by
  rw [fetchUserStats_of_fallback rt (some id) remote st hfb, emptyBodyBranch_absent rt id hc]

theorem cacheIs_exampleRuntime (text : String) (won played : ℚ) (hne : text ≠ "") :
    cacheIs (exampleRuntime (some text) text
      (.obj [("gamesPlayed", count played), ("gamesWon", count won)])) "u1"
      (some (won, played)) := by
  refine ⟨text, [("gamesPlayed", count played), ("gamesWon", count won)], ?_, hne, ?_, ?_, ?_⟩
  · simp [exampleRuntime]
  · simp [exampleRuntime]
  · simp [lookupProp, count]
  · simp [lookupProp, count]

/-! ### The win rate in double precision -/

theorem winRate_value_error (won played : ℕ) (hw : 0 < won) (hp : 0 < played)
    (hw53 : won < 2 ^ 53) (hp53 : played < 2 ^ 53) :
    ∃ d, JSNum.mul (JSNum.div (.fin won) (.fin played)) (.fin 100) = .fin d ∧
      0 ≤ d ∧ d < 10 ^ 21 ∧
      |d - (won : ℚ) / played * 100| ≤ (won : ℚ) / played * 100 / 2 ^ 51 := by
  have hwq : (1 : ℚ) ≤ won := by exact_mod_cast hw
  have hpq : (1 : ℚ) ≤ played := by exact_mod_cast hp
  have hw53q : (won : ℚ) < 2 ^ 53 := by exact_mod_cast hw53
  have hp53q : (played : ℚ) < 2 ^ 53 := by exact_mod_cast hp53
  have hp0 : (0 : ℚ) < played := by linarith
  have hne : (played : ℚ) ≠ 0 := ne_of_gt hp0
  have hdiv : JSNum.div (.fin won) (.fin played) = roundDouble ((won : ℚ) / played) := by
    simp only [JSNum.div]
    rw [if_pos hne]
  rw [hdiv]
  have hxlo : 1 / 2 ^ 53 ≤ (won : ℚ) / played := by
    rw [div_le_div_iff₀ (by positivity) hp0]
    nlinarith
  have hxhi : (won : ℚ) / played ≤ 2 ^ 53 := by
    rw [div_le_iff₀ hp0]
    nlinarith
  generalize (won : ℚ) / played = x at hxlo hxhi ⊢
  have hx0 : 0 < x := lt_of_lt_of_le (by positivity) hxlo
  have hc1 : (1 : ℚ) / 2 ^ 53 = 1 / 9007199254740992 := by norm_num
  have hc2 : (2 : ℚ) ^ 53 = 9007199254740992 := by norm_num
  obtain ⟨y, hy, hyerr⟩ := roundDouble_error x
    (le_trans (by norm_num) hxlo) (lt_of_le_of_lt hxhi (by norm_num))
  obtain ⟨hy1, hy2⟩ := abs_le.mp hyerr
  have hxe : x / 2 ^ 53 = x * (1 / 9007199254740992) := by rw [hc2]; ring
  rw [hxe] at hy1 hy2
  have hylo : x / 2 ≤ y := by linarith
  have hyhi : y ≤ 2 * x := by linarith
  have hy0 : 0 < y := by linarith
  have hlo : (2 : ℚ) ^ (-1022 : ℤ) ≤ y * 100 := by
    have h1 : (2 : ℚ) ^ (-1022 : ℤ) ≤ 1 / 2 ^ 53 / 2 * 100 := by norm_num
    have h2 : 1 / 2 ^ 53 / 2 * 100 ≤ y * 100 := by linarith
    exact le_trans h1 h2
  have hhi : y * 100 < 2 ^ 1023 := by
    have h1 : (2 : ℚ) * 2 ^ 53 * 100 < 2 ^ 1023 := by norm_num
    have h2 : y * 100 ≤ 2 * 2 ^ 53 * 100 := by linarith
    exact lt_of_le_of_lt h2 h1
  obtain ⟨d, hd, hderr⟩ := roundDouble_error (y * 100) hlo hhi
  obtain ⟨hd1, hd2⟩ := abs_le.mp hderr
  have hze : y * 100 / 2 ^ 53 = y * (100 / 9007199254740992) := by rw [hc2]; ring
  rw [hze] at hd1 hd2
  have hmul : JSNum.mul (roundDouble x) (.fin 100) = .fin d := by
    rw [hy]
    exact hd
  refine ⟨d, hmul, by linarith, ?_, ?_⟩
  · have h1 : (2 : ℚ) * (2 * 2 ^ 53 * 100) < 10 ^ 21 := by norm_num
    have h2 : d ≤ 2 * (2 * 2 ^ 53 * 100) := by linarith
    exact lt_of_le_of_lt h2 h1
  · have e2 : x * 100 / 2 ^ 51 = x * (400 / 9007199254740992) := by
      have : (2 : ℚ) ^ 51 = 2251799813685248 := by norm_num
      rw [this]
      ring
    rw [abs_le, e2]
    constructor <;> linarith

theorem abs_tenths_sub_le (d : ℚ) (h0 : 0 ≤ d) :
    |((Int.toNat ⌊d * 10 + 1 / 2⌋ : ℕ) : ℚ) / 10 - d| ≤ 1 / 20 := by
  have hf0 : 0 ≤ ⌊d * 10 + 1 / 2⌋ := Int.floor_nonneg.mpr (by positivity)
  have hcast : ((Int.toNat ⌊d * 10 + 1 / 2⌋ : ℕ) : ℚ) = (⌊d * 10 + 1 / 2⌋ : ℚ) := by
    have := Int.toNat_of_nonneg hf0
    exact_mod_cast this
  have h1 := Int.floor_le (d * 10 + 1 / 2)
  have h2 := Int.lt_floor_add_one (d * 10 + 1 / 2)
  rw [hcast, abs_le]
  constructor <;> linarith

theorem roundDouble_tie_quotient :
    roundDouble (23 / 80) = .fin (5179139571476070 / 2 ^ 54) := by
  rw [roundDouble_eval (23 / 80) (-2) 5179139571476070 (by norm_num) (by norm_num)
    (by norm_num) (by norm_num) (by norm_num [roundHalfEven]) (by norm_num)]
  norm_num

theorem roundDouble_tie_product :
    roundDouble (5179139571476070 / 2 ^ 54 * 100) = .fin (8092405580431359 / 2 ^ 48) := by
  rw [roundDouble_eval (5179139571476070 / 2 ^ 54 * 100) 4 8092405580431359 (by norm_num)
    (by norm_num) (by norm_num) (by norm_num) (by norm_num [roundHalfEven]) (by norm_num)]
  norm_num

/-- C5, as stated, fails: with 23 wins in 80 games cached and the remote
unreachable, `gamesWon / gamesPlayed * 100` is exactly 28.75, which rounded to
one decimal place is `"28.8"`; the code prints `"28.7"`, because the quotient
and the product are rounded to doubles before `toFixed(1)` sees them. -/
theorem fallback_winRate_tie_prints_lower :
    (∃ snap, fetchUserStats tieRuntime (some "u1") .rejected initialState =
        ({ stats := some snap, loading := false }, none) ∧
      snap.winRate = .str "28.7") ∧
    (23 / 80 * 100 : ℚ) = 28.75 ∧ specWinRate (some (23, 80)) = "28.8" ∧
    JSValue.str "28.7" ≠ JSValue.str (specWinRate (some (23, 80))) := by
  have hspec : specWinRate (some (23, 80)) = "28.8" := by
    have h : Int.toNat (round (|(23 / 80 * 100 : ℚ)| * 10)) = 288 := by
      rw [abs_of_pos (by norm_num), round_eq]
      norm_num
      rfl
    have hneg : ¬ ((23 / 80 * 100 : ℚ) < 0) := by norm_num
    have hpos : (0 : ℚ) < 80 := by norm_num
    simp only [specWinRate, roundOneDecimal, h, hneg, hpos, if_true, if_false,
      String.empty_append]
    decide
  refine ⟨?_, by norm_num, hspec, ?_⟩
  · obtain ⟨snap, hs, hw, -⟩ := fetchUserStats_fallback_counts tieRuntime "u1" .rejected
      initialState 23 80 rfl (cacheIs_exampleRuntime _ 23 80 (by decide))
    refine ⟨snap, hs, ?_⟩
    have hv : JSNum.mul (JSNum.div (.fin 23) (.fin 80)) (.fin 100) =
        .fin (8092405580431359 / 2 ^ 48) := by
      have hdiv : JSNum.div (.fin 23) (.fin 80) = .fin (5179139571476070 / 2 ^ 54) := by
        simp only [JSNum.div]
        rw [if_pos (by norm_num)]
        exact roundDouble_tie_quotient
      rw [hdiv]
      exact roundDouble_tie_product
    have h : Int.toNat ⌊(8092405580431359 / 2 ^ 48 : ℚ) * 10 + 1 / 2⌋ = 287 := by
      norm_num
      rfl
    have hf : formatTenths 287 = "28.7" := by decide
    rw [hw, if_pos (by norm_num), hv,
      toFixed1_of_nonneg _ _ (by norm_num) (by norm_num), h, hf]
  · rw [hspec]
    intro h
    have h2 : "28.7" = "28.8" := JSValue.str.inj h
    exact absurd h2 (by decide)

/-- C5, amended: on the fallback path, for cached counts that are integers below
`2^53`, the snapshot's `winRate` is the text of `n` tenths, integer part,
point and one digit, and `n / 10` lies within `0.05 + r / 2^51` of the exact
rate `r`, which is `gamesWon / gamesPlayed * 100` when `gamesPlayed > 0` and 0
when it is not or there is no cache entry.  So the text is `"0.0"` when
`r = 0`, and the one-decimal rounding of `r` up to the rounding error of the
double arithmetic. -/
theorem fallback_winRate_nearest_tenth (rt : Runtime) (id : String) (remote : RemoteOutcome)
    (st : ProfileState) (cached : Option (ℕ × ℕ)) (hfb : remote.isFallback = true)
    (hc : cacheIs rt id (cachedCounts cached))
    (hsafe : ∀ won played, cached = some (won, played) → won < 2 ^ 53 ∧ played < 2 ^ 53) :
    ∃ (snap : StatsSnapshot) (n : ℕ), fetchUserStats rt (some id) remote st =
        ({ stats := some snap, loading := false }, none) ∧
      snap.winRate = .str (toString (n / 10 : ℕ) ++ "." ++ toString (n % 10 : ℕ)) ∧
      |(n : ℚ) / 10 - exactWinRate cached| ≤ 1 / 20 + exactWinRate cached / 2 ^ 51 := by
  match cached, hc, hsafe with
  | none, hc, _ =>
    refine ⟨zeroSnapshot, 0, fetchUserStats_fallback_absent rt id remote st hfb hc, ?_, ?_⟩
    · exact congrArg JSValue.str formatTenths_zero.symm
    · norm_num [exactWinRate]
  | some (won, played), hc, hsafe =>
    obtain ⟨hw53, hp53⟩ := hsafe won played rfl
    obtain ⟨snap, hs, hw, -⟩ :=
      fetchUserStats_fallback_counts rt id remote st won played hfb hc
    by_cases hpos : 0 < played
    · have hposq : (0 : ℚ) < played := by exact_mod_cast hpos
      rcases Nat.eq_zero_or_pos won with hw0 | hw0
      · subst hw0
        refine ⟨snap, 0, hs, ?_, ?_⟩
        · have hv : JSNum.mul (JSNum.div (.fin ((0 : ℕ) : ℚ)) (.fin played)) (.fin 100) =
              .fin 0 := by
            simp [JSNum.div, JSNum.mul, ne_of_gt hposq, roundDouble_zero]
          have h : Int.toNat ⌊(0 : ℚ) * 10 + 1 / 2⌋ = 0 := by
            norm_num
          rw [hw, if_pos hposq, hv, toFixed1_of_nonneg rt 0 (le_refl _) (by norm_num), h]
          rfl
        · norm_num [exactWinRate, hpos]
      · obtain ⟨d, hd, hd0, hd21, hderr⟩ := winRate_value_error won played hw0 hpos hw53 hp53
        refine ⟨snap, Int.toNat ⌊d * 10 + 1 / 2⌋, hs, ?_, ?_⟩
        · rw [hw, if_pos hposq, hd, toFixed1_of_nonneg rt d hd0 hd21]
          rfl
        · have h1 := abs_le.mp (abs_tenths_sub_le d hd0)
          have h2 := abs_le.mp hderr
          simp only [exactWinRate, hpos, if_true]
          rw [abs_le]
          constructor <;> linarith
    · have hp0 : played = 0 := by omega
      subst hp0
      refine ⟨snap, 0, hs, ?_, ?_⟩
      · rw [hw, if_neg (by norm_num)]
        exact congrArg JSValue.str formatTenths_zero.symm
      · norm_num [exactWinRate]

/-- C5, amended, at the cache with `gamesPlayed` 20 and `gamesWon` 5 and an
unreachable remote: the bound leaves only 250 tenths, the text `"25.0"`. -/
theorem fallback_winRate_nearest_tenth_witness :
    ∃ snap, fetchUserStats cachedRuntime (some "u1") .rejected initialState =
        ({ stats := some snap, loading := false }, none) ∧
      snap.winRate = .str "25.0" := by
  obtain ⟨snap, n, hs, hw, hb⟩ := fallback_winRate_nearest_tenth cachedRuntime "u1" .rejected
    initialState (some (5, 20)) rfl
    (by simpa [cachedCounts] using cacheIs_exampleRuntime cachedText 5 20 (by decide))
    (by
      intro won played h
      cases h
      norm_num)
  refine ⟨snap, hs, ?_⟩
  have hn : n = 250 := by
    have hr : exactWinRate (some (5, 20)) = 25 := by norm_num [exactWinRate]
    rw [hr] at hb
    obtain ⟨h1, h2⟩ := abs_le.mp hb
    have h3 : (249 : ℚ) < n := by
      have : (25 : ℚ) / 2 ^ 51 < 1 / 20 := by norm_num
      linarith
    have h4 : (n : ℚ) < 251 := by
      have : (25 : ℚ) / 2 ^ 51 < 1 / 20 := by norm_num
      linarith
    have h5 : 249 < n := by exact_mod_cast h3
    have h6 : n < 251 := by exact_mod_cast h4
    omega
  have hf : formatTenths 250 = "25.0" := by decide
  rw [hw, hn]
  exact congrArg JSValue.str hf

theorem emptyBodyBranch_achievement (rt : Runtime) (user : Option String) (s : StatsSnapshot)
    (h : emptyBodyBranch rt user = .ok s) : s.achievementLevel = .str "Bingo Rookie" := by
  unfold emptyBodyBranch at h
  simp only [bind, Except.bind, pure, Except.pure] at h
  repeat' split at h
  all_goals first
    | (cases h; rfl)
    | cases h

/-- C7: on the fallback path, whatever the cache holds, a snapshot that
`fetchUserStats` sets has `achievementLevel` `"Bingo Rookie"`; and a snapshot
is set when the cache entry is absent or holds any `gamesWon` count, which the
snapshot carries unchanged next to the fixed tier. -/
theorem fallback_achievement_is_rookie (rt : Runtime) (user : Option String)
    (remote : RemoteOutcome) (st : ProfileState) (hfb : remote.isFallback = true) :
    (∀ snap, fetchUserStats rt user remote st =
        ({ stats := some snap, loading := false }, none) →
      snap.achievementLevel = .str "Bingo Rookie") ∧
    (∀ id cached, user = some id → cacheIs rt id cached →
      ∃ snap, fetchUserStats rt user remote st =
          ({ stats := some snap, loading := false }, none) ∧
        snap.achievementLevel = .str "Bingo Rookie" ∧
        (∀ won played, cached = some (won, played) → snap.gamesWon = .num (.fin won))) := by
  constructor
  · intro snap h
    rw [fetchUserStats_of_fallback rt user remote st hfb] at h
    cases hb : emptyBodyBranch rt user with
    | error e =>
      rw [hb] at h
      simp at h
    | ok s =>
      rw [hb] at h
      have hs : s = snap := by simpa using h
      exact hs ▸ emptyBodyBranch_achievement rt user s hb
  · intro id cached hu hc
    subst hu
    match cached, hc with
    | none, hc =>
      exact ⟨zeroSnapshot, fetchUserStats_fallback_absent rt id remote st hfb hc, rfl,
        fun _ _ h => by cases h⟩
    | some (won, played), hc =>
      obtain ⟨snap, hs, -, ha, hw, -⟩ :=
        fetchUserStats_fallback_counts rt id remote st won played hfb hc
      refine ⟨snap, hs, ha, ?_⟩
      intro w p h
      cases h
      exact hw

/-- C7, at a cache holding 150 wins, which `getAchievementLevel` would call
`"Bingo Master"`: the snapshot says `"Bingo Rookie"`. -/
theorem fallback_achievement_is_rookie_witness :
    ∃ snap, fetchUserStats veteranRuntime (some "u1") .rejected initialState =
        ({ stats := some snap, loading := false }, none) ∧
      snap.achievementLevel = .str "Bingo Rookie" ∧
      (∀ won played, some ((150 : ℚ), (200 : ℚ)) = some (won, played) →
        snap.gamesWon = .num (.fin won)) :=
  (fallback_achievement_is_rookie veteranRuntime (some "u1") .rejected initialState rfl).2
    "u1" (some (150, 200)) rfl (cacheIs_exampleRuntime _ 150 200 (by decide))

theorem fetchUserStats_of_truthy (rt : Runtime) (user : Option String) (data : JSValue)
    (st : ProfileState) (h : toBoolean data = true) :
    fetchUserStats rt user (.resolved data) st =
      ({ stats := some
          { gamesPlayed := jsOr (data.field "gamesPlayed") zero
            gamesWon := jsOr (data.field "gamesWon") zero
            gamesLost := jsOr (data.field "gamesLost") zero
            gamesDrawn := jsOr (data.field "gamesDrawn") zero
            totalLinesCompleted := jsOr (data.field "totalLinesCompleted") zero
            averageLinesPerGame := jsOr (data.field "averageLinesPerGame") zero
            winRate := jsOr (data.field "winRate") zero
            achievementLevel := jsOr (data.field "achievementLevel") (.str "Bingo Rookie") },
         loading := false }, none) := by
  simp only [fetchUserStats, tryBlock, h, if_true, remoteBranch_of_truthy data h]

theorem roundDouble_three_halves : roundDouble (3 / 2) = .fin (3 / 2) := by
  rw [roundDouble_eval (3 / 2) 0 (3 * 2 ^ 51) (by norm_num) (by norm_num) (by norm_num)
    (by norm_num) (by norm_num [roundHalfEven]) (by norm_num)]
  norm_num

theorem roundDouble_150 : roundDouble 150 = .fin 150 := by
  rw [roundDouble_eval 150 7 (150 * 2 ^ 45) (by norm_num) (by norm_num) (by norm_num)
    (by norm_num) (by norm_num [roundHalfEven]) (by norm_num)]
  norm_num

theorem overfull_winRate :
    ∃ snap, fetchUserStats overfullRuntime (some "u1") .rejected initialState =
        ({ stats := some snap, loading := false }, none) ∧
      snap.winRate = .str "150.0" := by
  obtain ⟨snap, hs, hw, -⟩ := fetchUserStats_fallback_counts overfullRuntime "u1" .rejected
    initialState 3 2 rfl (cacheIs_exampleRuntime _ 3 2 (by decide))
  refine ⟨snap, hs, ?_⟩
  have hv : JSNum.mul (JSNum.div (.fin 3) (.fin 2)) (.fin 100) = .fin 150 := by
    have e : (3 / 2 * 100 : ℚ) = 150 := by norm_num
    simp [JSNum.div, JSNum.mul, roundDouble_three_halves, e, roundDouble_150]
  have h : Int.toNat ⌊(150 : ℚ) * 10 + 1 / 2⌋ = 1500 := by
    norm_num
    rfl
  have hf : formatTenths 1500 = "150.0" := by decide
  rw [hw, if_pos (by norm_num), hv, toFixed1_of_nonneg _ 150 (by norm_num) (by norm_num), h, hf]

theorem corrupt_rejects (remote : RemoteOutcome) (st : ProfileState)
    (hfb : remote.isFallback = true) :
    fetchUserStats corruptRuntime (some "u1") remote st =
      ({ stats := st.stats, loading := false }, some .syntaxError) := by
  rw [fetchUserStats_of_fallback corruptRuntime (some "u1") remote st hfb,
    emptyBodyBranch_corrupt corruptRuntime "u1" "not json"
      (by simp [corruptRuntime, exampleRuntime]) (by decide)
      (by simp [corruptRuntime, exampleRuntime, cachedText])]

theorem fallback_winRate_tenths (rt : Runtime) (id : String) (remote : RemoteOutcome)
    (st : ProfileState) (cached : Option (ℚ × ℚ)) (hfb : remote.isFallback = true)
    (hc : cacheIs rt id cached)
    (hle : ∀ won played, cached = some (won, played) → 0 ≤ won ∧ won ≤ played) :
    ∃ snap n, fetchUserStats rt (some id) remote st =
        ({ stats := some snap, loading := false }, none) ∧
      snap.winRate = .str (formatTenths n) ∧ n ≤ 1000 := by
  match cached, hc, hle with
  | none, hc, _ =>
    exact ⟨zeroSnapshot, 0, fetchUserStats_fallback_absent rt id remote st hfb hc,
      congrArg JSValue.str formatTenths_zero.symm, by decide⟩
  | some (won, played), hc, hle =>
    obtain ⟨h0, hwp⟩ := hle won played rfl
    obtain ⟨snap, hs, hw, -⟩ := fetchUserStats_fallback_counts rt id remote st won played hfb hc
    by_cases hpos : 0 < played
    · obtain ⟨d, hd, hd0, hd1⟩ := winRate_value_bounded won played h0 hwp hpos
      refine ⟨snap, Int.toNat ⌊d * 10 + 1 / 2⌋, hs, ?_, tenths_le_of_le d hd1⟩
      rw [hw, if_pos hpos, hd,
        toFixed1_of_nonneg rt d hd0 (lt_of_le_of_lt hd1 (by norm_num))]
    · refine ⟨snap, 0, hs, ?_, by decide⟩
      rw [hw, if_neg hpos, formatTenths_zero]

/-- C10: on the fallback path, for cached counts that are non-negative
integers with `gamesWon ≤ gamesPlayed`, the win rate is the decimal text of
`n` tenths with `n ≤ 1000`, a value in [0, 100]; and the bound is not
guaranteed without the precondition: the cache with `gamesPlayed` 2 and
`gamesWon` 3 gives `"150.0"`. -/
theorem fallback_winRate_bounded (rt : Runtime) (id : String) (remote : RemoteOutcome)
    (st : ProfileState) (won played : ℕ) (hfb : remote.isFallback = true)
    (hc : cacheIs rt id (some ((won : ℚ), (played : ℚ)))) (hle : won ≤ played) :
    (∃ snap n, fetchUserStats rt (some id) remote st =
        ({ stats := some snap, loading := false }, none) ∧
      snap.winRate = .str (formatTenths n) ∧ n ≤ 1000) ∧
    ∃ snap, fetchUserStats overfullRuntime (some "u1") .rejected initialState =
        ({ stats := some snap, loading := false }, none) ∧
      snap.winRate = .str "150.0" := by
  constructor
  · refine fallback_winRate_tenths rt id remote st _ hfb hc ?_
    intro w p h
    cases h
    exact ⟨Nat.cast_nonneg _, by exact_mod_cast hle⟩
  · exact overfull_winRate

/-- C10, at the cache with `gamesPlayed` 20 and `gamesWon` 5. -/
theorem fallback_winRate_bounded_witness :
    (∃ snap n, fetchUserStats cachedRuntime (some "u1") (.resolved .null) initialState =
        ({ stats := some snap, loading := false }, none) ∧
      snap.winRate = .str (formatTenths n) ∧ n ≤ 1000) ∧
    ∃ snap, fetchUserStats overfullRuntime (some "u1") .rejected initialState =
        ({ stats := some snap, loading := false }, none) ∧
      snap.winRate = .str "150.0" :=
  fallback_winRate_bounded cachedRuntime "u1" (.resolved .null) initialState 5 20 rfl
    (by simpa using cacheIs_exampleRuntime cachedText 5 20 (by decide)) (by decide)

/-! ## Totality and the corrupt cache -/

theorem jsOr_ne_undefined (a d : JSValue) (hd : d ≠ .undefined) : jsOr a d ≠ .undefined := by
  unfold jsOr
  split_ifs with h
  · intro ha
    rw [ha] at h
    simp [toBoolean] at h
  · exact hd

theorem getProp_of_ok (v w : JSValue) (key : String) (h : getProp v key = .ok w) :
    ∀ k, getProp v k = .ok (v.field k) := by
  intro k
  cases v <;> simp_all [getProp]

theorem countsConvert_default (rt : Runtime) : countsConvert rt defaultUserStats := by
  refine ⟨⟨_, rfl⟩, .fin 0, ?_, ?_⟩
  · simp [defaultUserStats, JSValue.field, lookupProp, zero, toNumber]
  · intro h
    simp [JSNum.lt] at h

theorem emptyBodyBranch_of_usable (rt : Runtime) (id : String) (v : JSValue)
    (hv : cacheValue rt id v) (hc : countsConvert rt v) :
    ∃ text, emptyBodyBranch rt (some id) = .ok
        { gamesPlayed := v.field "gamesPlayed"
          gamesWon := v.field "gamesWon"
          gamesLost := v.field "gamesLost"
          gamesDrawn := jsOr (v.field "gamesDrawn") zero
          totalLinesCompleted := v.field "totalLinesCompleted"
          averageLinesPerGame := v.field "averageLinesPerGame"
          winRate := .str text
          achievementLevel := .str "Bingo Rookie" } ∧
      (∀ won played : ℚ, v.field "gamesWon" = .num (.fin won) →
        v.field "gamesPlayed" = .num (.fin played) → 0 ≤ won → won ≤ played →
        ∃ n : ℕ, n ≤ 1000 ∧ text = formatTenths n) := by
  obtain ⟨⟨w, hw⟩, n, hn, hm⟩ := hc
  have hgp := getProp_of_ok v w _ hw
  by_cases hlt : JSNum.lt (.fin 0) n = true
  · obtain ⟨m, hm'⟩ := hm hlt
    refine ⟨toFixed1 rt (JSNum.mul (JSNum.div m n) (.fin 100)), ?_, ?_⟩
    · rcases hv with ⟨hget, hdef⟩ | ⟨hget, hdef⟩ | ⟨text, hget, hne, hp⟩
      · subst hdef
        simp [emptyBodyBranch, statsKey, hget, bind, Except.bind, pure, Except.pure, hgp,
          jsGtZero, hn, hlt, hm']
      · subst hdef
        simp [emptyBodyBranch, statsKey, hget, bind, Except.bind, pure, Except.pure, hgp,
          jsGtZero, hn, hlt, hm']
      · simp [emptyBodyBranch, statsKey, hget, hne, parseJSON, hp, bind, Except.bind, pure,
          Except.pure, hgp, jsGtZero, hn, hlt, hm']
    · intro won played h1 h2 h0 hle
      rw [h1] at hm'
      rw [h2] at hn
      simp only [toNumber, Except.ok.injEq] at hm' hn
      subst hm' hn
      have hpos : 0 < played := by simpa [JSNum.lt] using hlt
      obtain ⟨d, hd, hd0, hd1⟩ := winRate_value_bounded won played h0 hle hpos
      exact ⟨Int.toNat ⌊d * 10 + 1 / 2⌋, tenths_le_of_le d hd1, by
        rw [hd, toFixed1_of_nonneg rt d hd0 (lt_of_le_of_lt hd1 (by norm_num))]⟩
  · refine ⟨"0.0", ?_, fun _ _ _ _ _ _ => ⟨0, by decide, formatTenths_zero.symm⟩⟩
    rcases hv with ⟨hget, hdef⟩ | ⟨hget, hdef⟩ | ⟨text, hget, hne, hp⟩
    · subst hdef
      simp [emptyBodyBranch, statsKey, hget, bind, Except.bind, pure, Except.pure, hgp,
        jsGtZero, hn, hlt]
    · subst hdef
      simp [emptyBodyBranch, statsKey, hget, bind, Except.bind, pure, Except.pure, hgp,
        jsGtZero, hn, hlt]
    · simp [emptyBodyBranch, statsKey, hget, hne, parseJSON, hp, bind, Except.bind, pure,
        Except.pure, hgp, jsGtZero, hn, hlt]

theorem countsConvert_of_ok (rt : Runtime) (id text : String) (v : JSValue) (s : StatsSnapshot)
    (hget : rt.getItem ("bingoStats_" ++ id) = some text) (hne : text ≠ "")
    (hp : rt.jsonParse text = some v) (h : emptyBodyBranch rt (some id) = .ok s) :
    countsConvert rt v := by
  simp only [emptyBodyBranch, statsKey, hget, hne, parseJSON, hp, bind, Except.bind, pure,
    Except.pure, ne_eq, not_false_eq_true, if_true] at h
  cases hg : getProp v "gamesPlayed" with
  | error e =>
    rw [hg] at h
    simp at h
  | ok w =>
    have hgp := getProp_of_ok v w _ hg
    have hw : w = v.field "gamesPlayed" := by
      have := hgp "gamesPlayed"
      rw [hg] at this
      exact Except.ok.inj this
    subst hw
    refine ⟨⟨_, hg⟩, ?_⟩
    cases hn : toNumber rt (v.field "gamesPlayed") with
    | error e =>
      simp [hgp, jsGtZero, hn] at h
    | ok n =>
      refine ⟨n, rfl, fun hlt => ?_⟩
      cases hm : toNumber rt (v.field "gamesWon") with
      | error e =>
        simp [hgp, jsGtZero, hn, hlt, hm] at h
      | ok m => exact ⟨m, rfl⟩

theorem cacheValue_of_ok (rt : Runtime) (id : String) (s : StatsSnapshot)
    (h : emptyBodyBranch rt (some id) = .ok s) :
    ∃ v, cacheValue rt id v ∧ countsConvert rt v := by
  cases hget : rt.getItem ("bingoStats_" ++ id) with
  | none => exact ⟨defaultUserStats, Or.inl ⟨hget, rfl⟩, countsConvert_default rt⟩
  | some text =>
    by_cases hne : text = ""
    · subst hne
      exact ⟨defaultUserStats, Or.inr (Or.inl ⟨hget, rfl⟩), countsConvert_default rt⟩
    · cases hp : rt.jsonParse text with
      | none =>
        rw [emptyBodyBranch_corrupt rt id text hget hne hp] at h
        cases h
      | some v =>
        exact ⟨v, Or.inr (Or.inr ⟨text, hget, hne, hp⟩),
          countsConvert_of_ok rt id text v s hget hne hp h⟩


theorem cacheValue_cachedRuntime : cacheValue cachedRuntime "u1" cachedObject :=
  Or.inr (Or.inr ⟨cachedText, by simp [cachedRuntime, exampleRuntime], by decide,
    by simp [cachedRuntime, exampleRuntime]⟩)

theorem countsConvert_cachedObject (rt : Runtime) : countsConvert rt cachedObject := by
  refine ⟨⟨_, rfl⟩, .fin 20, ?_, fun _ => ⟨.fin 5, ?_⟩⟩
  · simp [cachedObject, JSValue.field, lookupProp, count, toNumber]
  · simp [cachedObject, JSValue.field, lookupProp, count, toNumber]

/-- C1, as stated, fails.  With a failed request, a corrupt cache entry makes
`fetchUserStats` reject with the `SyntaxError` of `JSON.parse`, and the entry
`null` makes it reject with a `TypeError`, no snapshot being set; with cached
counts 3 of 2 the fallback win rate is `"150.0"`; a remote `winRate` of 250 is
copied into the snapshot; and with the cache holding only `gamesPlayed` and
`gamesWon` the snapshot's `gamesLost` is `undefined`. -/
theorem fetchUserStats_not_total :
    fetchUserStats corruptRuntime (some "u1") .rejected initialState =
      ({ stats := none, loading := false }, some .syntaxError) ∧
    fetchUserStats nullRuntime (some "u1") .rejected initialState =
      ({ stats := none, loading := false }, some .typeError) ∧
    (fetchUserStats overfullRuntime (some "u1") .rejected initialState).1.stats.map
      (fun s => s.winRate) = some (.str "150.0") ∧
    (fetchUserStats emptyRuntime (some "u1") (.resolved (.obj [("winRate", count 250)]))
      initialState).1.stats.map (fun s => s.winRate) = some (count 250) ∧
    (fetchUserStats cachedRuntime (some "u1") .rejected initialState).1.stats.map
      (fun s => s.gamesLost) = some .undefined := by
  refine ⟨?_, ?_, ?_, ?_, ?_⟩
  · exact corrupt_rejects .rejected initialState rfl
  · rw [fetchUserStats_of_fallback nullRuntime (some "u1") .rejected initialState rfl]
    simp [emptyBodyBranch, statsKey, nullRuntime, exampleRuntime, parseJSON, bind,
      Except.bind, getProp, initialState]
  · obtain ⟨snap, hs, hw⟩ := overfull_winRate
    rw [hs]
    simp only [Option.map_some', hw]
  · simp [fetchUserStats, tryBlock, toBoolean, remoteBranch_of_truthy,
      JSValue.field, lookupProp, jsOr, zero, count, JSNum.truthy]
  · obtain ⟨text, hs, -⟩ := emptyBodyBranch_of_usable cachedRuntime "u1" cachedObject
      cacheValue_cachedRuntime (countsConvert_cachedObject _)
    rw [fetchUserStats_of_fallback cachedRuntime (some "u1") .rejected initialState rfl, hs]
    simp [cachedObject, JSValue.field, lookupProp]

/-- C1, amended.  With a non-empty response body `fetchUserStats` fulfils and
sets a snapshot none of whose eight fields is `undefined`, for every user and
every cache state, corrupt ones included.  On the fallback path it fulfils
and sets a snapshot exactly when the cache entry is absent, empty, or parses
to a value that is not `null` and whose `gamesPlayed`, and `gamesWon` when
`gamesPlayed > 0`, convert to numbers.  That snapshot copies `gamesPlayed`,
`gamesWon`, `gamesLost`, `totalLinesCompleted` and `averageLinesPerGame` from
the cached value, so it has all eight fields when the cached value has these
five; `gamesDrawn` defaults to 0, `winRate` is a string and `achievementLevel`
is `"Bingo Rookie"`.  The `winRate` is the text of `n` tenths with `n ≤ 1000`
when the cached counts are numbers with `0 ≤ gamesWon ≤ gamesPlayed`. -/
theorem fetchUserStats_sets_snapshot (rt : Runtime) (user : Option String) (id : String)
    (remote : RemoteOutcome) (st : ProfileState) :
    (remote.isFallback = false →
      ∃ snap, fetchUserStats rt user remote st =
          ({ stats := some snap, loading := false }, none) ∧ snap.complete) ∧
    (remote.isFallback = true →
      ((∃ snap, fetchUserStats rt (some id) remote st =
          ({ stats := some snap, loading := false }, none)) ↔
        ∃ v, cacheValue rt id v ∧ countsConvert rt v) ∧
      ∀ v, cacheValue rt id v → countsConvert rt v →
        ∃ (snap : StatsSnapshot) (text : String),
          fetchUserStats rt (some id) remote st =
            ({ stats := some snap, loading := false }, none) ∧
          snap =
            { gamesPlayed := v.field "gamesPlayed"
              gamesWon := v.field "gamesWon"
              gamesLost := v.field "gamesLost"
              gamesDrawn := if toBoolean (v.field "gamesDrawn") then v.field "gamesDrawn"
                else .num (.fin 0)
              totalLinesCompleted := v.field "totalLinesCompleted"
              averageLinesPerGame := v.field "averageLinesPerGame"
              winRate := .str text
              achievementLevel := .str "Bingo Rookie" } ∧
          (v.field "gamesPlayed" ≠ .undefined → v.field "gamesWon" ≠ .undefined →
            v.field "gamesLost" ≠ .undefined → v.field "totalLinesCompleted" ≠ .undefined →
            v.field "averageLinesPerGame" ≠ .undefined → snap.complete) ∧
          (∀ won played : ℚ, v.field "gamesWon" = .num (.fin won) →
            v.field "gamesPlayed" = .num (.fin played) → 0 ≤ won → won ≤ played →
            ∃ n : ℕ, n ≤ 1000 ∧
              text = toString (n / 10 : ℕ) ++ "." ++ toString (n % 10 : ℕ))) := by
  constructor
  · intro hfb
    cases remote with
    | rejected => cases hfb
    | resolved data =>
      have hd : toBoolean data = true := by
        simpa [RemoteOutcome.isFallback] using hfb
      have hz : zero ≠ JSValue.undefined := by simp [zero]
      refine ⟨_, fetchUserStats_of_truthy rt user data st hd,
        jsOr_ne_undefined _ _ hz, jsOr_ne_undefined _ _ hz, jsOr_ne_undefined _ _ hz,
        jsOr_ne_undefined _ _ hz, jsOr_ne_undefined _ _ hz, jsOr_ne_undefined _ _ hz,
        jsOr_ne_undefined _ _ hz, jsOr_ne_undefined _ _ (by simp)⟩
  · intro hfb
    have hfetch := fetchUserStats_of_fallback rt (some id) remote st hfb
    have key : ∀ v, cacheValue rt id v → countsConvert rt v →
        ∃ (snap : StatsSnapshot) (text : String),
          fetchUserStats rt (some id) remote st =
            ({ stats := some snap, loading := false }, none) ∧
          snap =
            { gamesPlayed := v.field "gamesPlayed"
              gamesWon := v.field "gamesWon"
              gamesLost := v.field "gamesLost"
              gamesDrawn := if toBoolean (v.field "gamesDrawn") then v.field "gamesDrawn"
                else .num (.fin 0)
              totalLinesCompleted := v.field "totalLinesCompleted"
              averageLinesPerGame := v.field "averageLinesPerGame"
              winRate := .str text
              achievementLevel := .str "Bingo Rookie" } ∧
          (v.field "gamesPlayed" ≠ .undefined → v.field "gamesWon" ≠ .undefined →
            v.field "gamesLost" ≠ .undefined → v.field "totalLinesCompleted" ≠ .undefined →
            v.field "averageLinesPerGame" ≠ .undefined → snap.complete) ∧
          (∀ won played : ℚ, v.field "gamesWon" = .num (.fin won) →
            v.field "gamesPlayed" = .num (.fin played) → 0 ≤ won → won ≤ played →
            ∃ n : ℕ, n ≤ 1000 ∧
              text = toString (n / 10 : ℕ) ++ "." ++ toString (n % 10 : ℕ)) := by
      intro v hv hc
      obtain ⟨text, hs, hrate⟩ := emptyBodyBranch_of_usable rt id v hv hc
      refine ⟨_, text, by rw [hfetch, hs]; rfl, rfl, ?_, hrate⟩
      intro h1 h2 h3 h4 h5
      exact ⟨h1, h2, h3, jsOr_ne_undefined _ _ (by simp [zero]), h4, h5, by simp, by simp⟩
    refine ⟨⟨?_, ?_⟩, key⟩
    · rintro ⟨snap, hsnap⟩
      rw [hfetch] at hsnap
      cases hb : emptyBodyBranch rt (some id) with
      | error e =>
        rw [hb] at hsnap
        simp at hsnap
      | ok s => exact cacheValue_of_ok rt id s hb
    · rintro ⟨v, hv, hc⟩
      obtain ⟨snap, -, hs, -⟩ := key v hv hc
      exact ⟨snap, hs⟩

/-- C1, amended, at a non-empty body over a corrupt cache, and at a failed
request over the cache with `gamesPlayed` 20 and `gamesWon` 5. -/
theorem fetchUserStats_sets_snapshot_witness :
    (∃ snap, fetchUserStats corruptRuntime (some "u1")
        (.resolved (.obj [("gamesWon", count 3)])) initialState =
          ({ stats := some snap, loading := false }, none) ∧ snap.complete) ∧
    ∃ snap, fetchUserStats cachedRuntime (some "u1") .rejected initialState =
      ({ stats := some snap, loading := false }, none) :=
  ⟨(fetchUserStats_sets_snapshot corruptRuntime (some "u1") "u1"
      (.resolved (.obj [("gamesWon", count 3)])) initialState).1 rfl,
    ((fetchUserStats_sets_snapshot cachedRuntime (some "u1") "u1" .rejected
      initialState).2 rfl).1.mpr
      ⟨cachedObject, cacheValue_cachedRuntime, countsConvert_cachedObject _⟩⟩

/-- C2, as stated, fails: after an empty body, the corrupt cache entry makes
`fetchUserStats` reject with the `SyntaxError` and leave `stats` unset, while
the absent entry makes it fulfil with the all-zero snapshot. -/
theorem corrupt_cache_is_not_absent_cache :
    fetchUserStats corruptRuntime (some "u1") (.resolved (.str "")) initialState =
      ({ stats := none, loading := false }, some .syntaxError) ∧
    fetchUserStats emptyRuntime (some "u1") (.resolved (.str "")) initialState =
      ({ stats := some zeroSnapshot, loading := false }, none) := by
  constructor
  · exact corrupt_rejects (.resolved (.str "")) initialState rfl
  · exact fetchUserStats_fallback_absent emptyRuntime "u1" _ initialState rfl
      (by simp [cacheIs, emptyRuntime, exampleRuntime])

/-- C2, amended: on the fallback path, an absent (or empty-string) cache
entry gives the all-zero snapshot with `winRate` `"0.0"` and
`achievementLevel` `"Bingo Rookie"`; a corrupt entry makes `JSON.parse`
throw again inside the `catch` block, so `fetchUserStats` rejects with the
`SyntaxError`, keeps the previous `stats` and only clears `loading`. -/
theorem fallback_absent_or_corrupt (rt : Runtime) (id : String) (remote : RemoteOutcome)
    (st : ProfileState) (hfb : remote.isFallback = true) :
    ((rt.getItem ("bingoStats_" ++ id) = none ∨ rt.getItem ("bingoStats_" ++ id) = some "") →
      fetchUserStats rt (some id) remote st =
        ({ stats := some zeroSnapshot, loading := false }, none)) ∧
    (∀ text, rt.getItem ("bingoStats_" ++ id) = some text → text ≠ "" →
      rt.jsonParse text = none →
      fetchUserStats rt (some id) remote st =
        ({ stats := st.stats, loading := false }, some .syntaxError)) := by
  constructor
  · rintro (h | h)
    · rw [fetchUserStats_of_fallback rt (some id) remote st hfb, emptyBodyBranch_absent rt id h]
    · rw [fetchUserStats_of_fallback rt (some id) remote st hfb,
        emptyBodyBranch_emptyString rt id h]
  · intro text hg hne hp
    rw [fetchUserStats_of_fallback rt (some id) remote st hfb,
      emptyBodyBranch_corrupt rt id text hg hne hp]

/-- C2, amended, at a failed request: the absent entry and the corrupt one. -/
theorem fallback_absent_or_corrupt_witness :
    fetchUserStats emptyRuntime (some "u1") .rejected initialState =
      ({ stats := some zeroSnapshot, loading := false }, none) ∧
    fetchUserStats corruptRuntime (some "u1") .rejected
        { stats := some zeroSnapshot, loading := true } =
      ({ stats := some zeroSnapshot, loading := false }, some .syntaxError) :=
  ⟨(fallback_absent_or_corrupt emptyRuntime "u1" .rejected initialState rfl).1
      (Or.inl (by simp [emptyRuntime, exampleRuntime])),
    (fallback_absent_or_corrupt corruptRuntime "u1" .rejected
      { stats := some zeroSnapshot, loading := true } rfl).2 "not json"
      (by simp [corruptRuntime, exampleRuntime]) (by decide)
      (by simp [corruptRuntime, exampleRuntime, cachedText])⟩

/-! ## Teardown -/

theorem clean_iff (h : Host) : h.clean ↔ h.noSubscription ∧ h.noPolling := by
  simp only [Host.clean, fetchCallsOnSocketEvent, fetchCallsOnWindowEvent, fetchCallsOnTick,
    Host.noSubscription, Host.noPolling, List.length_eq_zero, List.filter_eq_nil_iff,
    Bool.not_eq_true]
  tauto

theorem subscriptionCleanup_noSubscription (h : Host) (c : SubscriptionCleanup)
    (ho : h.subscriptionOwned c) : (subscriptionCleanup c h).noSubscription := by
  obtain ⟨hs, hw⟩ := ho
  constructor
  · intro sock l hl
    cases hc : c.socket with
    | none =>
      simp only [subscriptionCleanup, hc, removeEventListener] at hl
      by_contra hne
      have := hs sock l hl (by simpa using hne)
      simp [hc] at this
    | some s0 =>
      simp only [subscriptionCleanup, hc, removeEventListener, socketOff] at hl
      by_cases hss : sock = s0
      · simp [hss] at hl
      · simp only [hss, if_false] at hl
        by_contra hne
        have := hs sock l hl (by simpa using hne)
        rw [hc] at this
        exact hss (Option.some.inj this).symm
  · intro l hl
    have hmem : l ∈ h.windowListeners ∧ l.id ≠ c.handleGameCompleted.id := by
      cases hc : c.socket <;>
        simpa [subscriptionCleanup, hc, removeEventListener, socketOff, List.mem_filter] using hl
    by_contra hne
    exact hmem.2 (hw l hmem.1 (by simpa using hne))

theorem subscriptionCleanup_intervals (h : Host) (c : SubscriptionCleanup) :
    (subscriptionCleanup c h).intervals = h.intervals := by
  cases hc : c.socket <;> simp [subscriptionCleanup, hc, removeEventListener, socketOff]

theorem subscriptionEffect_owned (h : Host) (socket : Option Nat) (hn : h.noSubscription) :
    (subscriptionEffect socket h).1.subscriptionOwned (subscriptionEffect socket h).2 := by
  obtain ⟨hs, hw⟩ := hn
  constructor
  · intro sock l hl hcf
    cases socket with
    | none =>
      have hl' : l ∈ h.socketListeners sock := by
        simp only [subscriptionEffect, addEventListener] at hl
        split at hl <;> simpa using hl
      rw [hs sock l hl'] at hcf
      cases hcf
    | some s0 =>
      have hl' : l ∈ (if sock = s0 then h.socketListeners sock ++
          [({ id := h.nextId, callsFetch := true } : Listener)] else h.socketListeners sock) := by
        simp only [subscriptionEffect, addEventListener, socketOn] at hl
        split at hl <;> simpa using hl
      by_cases hss : sock = s0
      · simp [subscriptionEffect, hss]
      · simp only [hss, if_false] at hl'
        rw [hs sock l hl'] at hcf
        cases hcf
  · intro l hl hcf
    have hl' : l ∈ h.windowListeners ∨
        l = ({ id := h.nextId + 1, callsFetch := true } : Listener) := by
      cases socket <;>
      · simp only [subscriptionEffect, addEventListener, socketOn] at hl
        split at hl
        · left
          simpa using hl
        · simpa using hl
    rcases hl' with hl' | hl'
    · rw [hw l hl'] at hcf
      cases hcf
    · simp [subscriptionEffect, hl']

theorem subscriptionEffect_intervals (h : Host) (socket : Option Nat) :
    (subscriptionEffect socket h).1.intervals = h.intervals := by
  cases socket <;>
  · simp only [subscriptionEffect, addEventListener, socketOn]
    split <;> rfl

theorem pollingEffect_owned (h : Host) (hn : h.noPolling) :
    (pollingEffect h).1.pollingOwned (pollingEffect h).2 := by
  intro p hp hcf
  simp only [pollingEffect, setInterval, List.mem_append, List.mem_singleton] at hp
  rcases hp with hp | hp
  · rw [hn p hp] at hcf
    cases hcf
  · simp [pollingEffect, setInterval, hp]

theorem pollingCleanup_noPolling (h : Host) (t : Nat) (ho : h.pollingOwned t) :
    (pollingCleanup t h).noPolling := by
  intro p hp
  simp only [pollingCleanup, clearInterval, List.mem_filter, bne_iff_ne, ne_eq] at hp
  by_contra hne
  exact hp.2 (ho p hp.1 (by simpa using hne))

/-- The invariant of a mounted component: whatever calls `fetchUserStats` is
covered by the cleanups the component holds. -/
theorem lifeStep_owned (step : LifeStep) (hm : Host × Mounted)
    (hs : hm.1.subscriptionOwned hm.2.subscription) (hp : hm.1.pollingOwned hm.2.interval) :
    (lifeStep step hm).1.subscriptionOwned (lifeStep step hm).2.subscription ∧
      (lifeStep step hm).1.pollingOwned (lifeStep step hm).2.interval := by
  cases step with
  | socketChanged socket =>
    refine ⟨subscriptionEffect_owned _ socket
      (subscriptionCleanup_noSubscription hm.1 hm.2.subscription hs), ?_⟩
    intro p hmem
    simp only [lifeStep, subscriptionEffect_intervals, subscriptionCleanup_intervals] at hmem
    exact hp p hmem
  | foreignSocketOn sock id =>
    refine ⟨⟨?_, hs.2⟩, hp⟩
    intro s l hl hcf
    simp only [lifeStep, socketOn] at hl
    by_cases hss : s = sock
    · simp only [hss, if_true, List.mem_append, List.mem_singleton] at hl
      rcases hl with hl | hl
      · exact hss ▸ hs.1 sock l hl hcf
      · rw [hl] at hcf
        cases hcf
    · simp only [hss, if_false] at hl
      exact hs.1 s l hl hcf
  | foreignWindowAdd id =>
    refine ⟨⟨?_, ?_⟩, ?_⟩
    · intro s l hl hcf
      have hl' : l ∈ hm.1.socketListeners s := by
        simp only [lifeStep, addEventListener] at hl
        split at hl <;> simpa using hl
      exact hs.1 s l hl' hcf
    · intro l hl hcf
      have hl' : l ∈ hm.1.windowListeners ∨ l = ({ id := id, callsFetch := false } : Listener) := by
        simp only [lifeStep, addEventListener] at hl
        split at hl
        · left
          simpa using hl
        · simpa using hl
      rcases hl' with hl' | hl'
      · exact hs.2 l hl' hcf
      · rw [hl'] at hcf
        cases hcf
    · intro p hmem hcf
      have hmem' : p ∈ hm.1.intervals := by
        simp only [lifeStep, addEventListener] at hmem
        split at hmem <;> simpa using hmem
      exact hp p hmem' hcf
  | foreignInterval id =>
    refine ⟨hs, ?_⟩
    intro p hmem hcf
    simp only [lifeStep, setInterval, List.mem_append, List.mem_singleton] at hmem
    rcases hmem with hmem | hmem
    · exact hp p hmem hcf
    · rw [hmem] at hcf
      cases hcf

theorem steps_owned (steps : List LifeStep) (hm : Host × Mounted)
    (hs : hm.1.subscriptionOwned hm.2.subscription) (hp : hm.1.pollingOwned hm.2.interval) :
    (steps.foldl (fun hm step => lifeStep step hm) hm).1.subscriptionOwned
        (steps.foldl (fun hm step => lifeStep step hm) hm).2.subscription ∧
      (steps.foldl (fun hm step => lifeStep step hm) hm).1.pollingOwned
        (steps.foldl (fun hm step => lifeStep step hm) hm).2.interval := by
  induction steps generalizing hm with
  | nil => exact ⟨hs, hp⟩
  | cons step rest ih =>
    obtain ⟨hs', hp'⟩ := lifeStep_owned step hm hs hp
    exact ih (lifeStep step hm) hs' hp'

theorem mount_owned (socket : Option Nat) (h : Host) (hc : h.clean) :
    (mount socket h).1.subscriptionOwned (mount socket h).2.subscription ∧
      (mount socket h).1.pollingOwned (mount socket h).2.interval := by
  obtain ⟨hn, hpoll⟩ := (clean_iff h).mp hc
  have hsub := subscriptionEffect_owned h socket hn
  constructor
  · exact ⟨fun sock l hl hcf => hsub.1 sock l (by simpa [mount, pollingEffect, setInterval] using hl) hcf,
      fun l hl hcf => hsub.2 l (by simpa [mount, pollingEffect, setInterval] using hl) hcf⟩
  · refine pollingEffect_owned _ ?_
    intro p hp
    rw [subscriptionEffect_intervals] at hp
    exact hpoll p hp

theorem unmount_clean (hm : Host × Mounted)
    (hs : hm.1.subscriptionOwned hm.2.subscription) (hp : hm.1.pollingOwned hm.2.interval) :
    (unmount hm).clean := by
  rw [clean_iff]
  have hn := subscriptionCleanup_noSubscription hm.1 hm.2.subscription hs
  constructor
  · exact ⟨fun sock l hl => hn.1 sock l (by simpa [unmount, pollingCleanup, clearInterval] using hl),
      fun l hl => hn.2 l (by simpa [unmount, pollingCleanup, clearInterval] using hl)⟩
  · refine pollingCleanup_noPolling _ _ ?_
    intro p hmem hcf
    rw [subscriptionCleanup_intervals] at hmem
    exact hp p hmem hcf

/-- C8: take a host in which no function of the component is registered,
mount the component with any socket, let the socket change and other code
register listeners in any order, and unmount.  In the resulting state a
`gameCompleted` event on any socket, a `gameCompleted` window event and an
elapsed 30-second period each cause no call of `fetchUserStats`: the cleanups
dropped the socket listeners, removed the window handler that was added and
cleared the interval. -/
theorem no_refresh_after_teardown (h : Host) (socket : Option Nat) (steps : List LifeStep)
    (hc : h.clean) :
    (∀ sock, fetchCallsOnSocketEvent (lifecycle socket steps h) sock = 0) ∧
      fetchCallsOnWindowEvent (lifecycle socket steps h) = 0 ∧
      fetchCallsOnTick (lifecycle socket steps h) = 0 := by
  obtain ⟨hs, hp⟩ := mount_owned socket h hc
  obtain ⟨hs', hp'⟩ := steps_owned steps (mount socket h) hs hp
  exact unmount_clean _ hs' hp'

/-- C8, for a component mounted on socket 1 whose socket changes to 2 while
another listener is added to `window`; before the teardown the window event
does reach `fetchUserStats`. -/
theorem no_refresh_after_teardown_witness :
    emptyHost.clean ∧
    fetchCallsOnWindowEvent (mount (some 1) emptyHost).1 = 1 ∧
    fetchCallsOnSocketEvent (mount (some 1) emptyHost).1 1 = 1 ∧
    fetchCallsOnTick (mount (some 1) emptyHost).1 = 1 ∧
    ((∀ sock, fetchCallsOnSocketEvent
        (lifecycle (some 1) [.foreignWindowAdd 7, .socketChanged (some 2)] emptyHost) sock = 0) ∧
      fetchCallsOnWindowEvent
        (lifecycle (some 1) [.foreignWindowAdd 7, .socketChanged (some 2)] emptyHost) = 0 ∧
      fetchCallsOnTick
        (lifecycle (some 1) [.foreignWindowAdd 7, .socketChanged (some 2)] emptyHost) = 0) := by
  have hc : emptyHost.clean := by
    simp [Host.clean, emptyHost, fetchCallsOnSocketEvent, fetchCallsOnWindowEvent,
      fetchCallsOnTick]
  refine ⟨hc, ?_, ?_, ?_, no_refresh_after_teardown emptyHost (some 1)
    [.foreignWindowAdd 7, .socketChanged (some 2)] hc⟩
  · decide
  · decide
  · decide

end Profile
